import Mathlib

/-!
# libvo/w32_common.c : window state, display modes, resize constraint, key input

A shallow embedding of the windowing back-end `libvo/w32_common.c`.

Conventions of the embedding

* The fields of `struct vo_w32_state`, of `struct vo`, of `vo->opts` and the
  process-wide `vo_*` / `xinerama_*` variables the code touches are gathered in
  one record `State`; the field names are the C names.
* Everything the code asks the operating system (display-mode enumeration,
  monitor enumeration, system metrics, `AdjustWindowRect`, `GetClientRect`)
  is an answer stored in a record `Platform`; the answers are arbitrary, so a
  statement quantified over `Platform` holds for every system.
* Calls that act on the operating system are recorded, in program order, as a
  list of `Directive`.
* C `int` / `LONG` geometry arithmetic of the window state is done in `Int`
  (signed overflow is undefined in C, so no wrap-around is modelled there).
  `DWORD` arithmetic of `changeMode` is done modulo `2 ^ 32` and its conversion
  to `int` is the two's-complement one.
* The `float` arithmetic of the `WM_SIZING` case is IEEE 754 binary32 with every
  operation, and every conversion of an `int` operand, rounded to nearest, ties
  to even (`FLT_EVAL_METHOD` 0).  A finite `float` is the rational it denotes;
  an infinity or a NaN is `none`.  The conversion of a `float` to `int`
  truncates toward zero; outside the range of `int`, where C leaves it
  undefined, it gives `INT_MIN` as the x86 conversion instruction does.  The
  `int` arithmetic of that case wraps around modulo `2 ^ 32`.  The aspect
  `vo->aspdat.asp` is a parameter ranging over the rationals, which include
  every finite `float`.
-/

namespace W32

/-! ## Data model -/

/-- Win32 `RECT`. -/
structure RECT where
  left : Int
  top : Int
  right : Int
  bottom : Int
deriving DecidableEq

/-- The three `DEVMODE` fields selected by
`dmFields = DM_BITSPERPEL | DM_PELSWIDTH | DM_PELSHEIGHT` (all `DWORD`). -/
structure DEVMODE where
  dmBitsPerPel : Nat
  dmPelsWidth : Nat
  dmPelsHeight : Nat
deriving DecidableEq

/-- Fields of `struct vo_w32_state`, `struct vo`, `vo->opts` and the globals
used by `w32_common.c`.  `style` is the window's `GWL_STYLE` word, read with
`GetWindowLong` and written with `SetWindowLong`. -/
structure State where
  prev_width : Int
  prev_height : Int
  prev_x : Int
  prev_y : Int
  window_bounds_initialized : Bool
  current_fs : Bool
  window_x : Int
  window_y : Int
  o_dwidth : Nat
  o_dheight : Nat
  vm : Int
  depthonscreen : Int
  event_flags : Int
  mon_cnt : Int
  dwidth : Int
  dheight : Int
  dx : Int
  dy : Int
  vo_screenwidth : Int
  vo_screenheight : Int
  vo_ontop : Int
  vo_fs : Int
  vo_border : Int
  vo_keepaspect : Int
  WinID : Int
  xinerama_screen : Int
  xinerama_x : Int
  xinerama_y : Int
  style : Nat
deriving DecidableEq

/-- Answers of the operating system to the queries made by the code. -/
structure Platform where
  /-- Modes reported by `EnumDisplaySettings(0, i, &dm)` for `i = 0, 1, ...`; the call fails at
  `i = displayModes.length`. -/
  displayModes : List DEVMODE
  /-- Result of `EnumDisplaySettings(0, ENUM_CURRENT_SETTINGS, &dm)`; `none` on failure. -/
  currentSettings : Option DEVMODE
  /-- Value of `GetSystemMetrics(SM_XVIRTUALSCREEN)`. -/
  xVirtualScreen : Int
  /-- Value of `GetSystemMetrics(SM_YVIRTUALSCREEN)`. -/
  yVirtualScreen : Int
  /-- Value of `GetSystemMetrics(SM_CXVIRTUALSCREEN)`. -/
  cxVirtualScreen : Int
  /-- Value of `GetSystemMetrics(SM_CYVIRTUALSCREEN)`. -/
  cyVirtualScreen : Int
  /-- The `rcMonitor` of `MonitorFromWindow(window, MONITOR_DEFAULTTOPRIMARY)`. -/
  windowMonitor : RECT
  /-- Monitor rectangles in the order `EnumDisplayMonitors` reports them. -/
  monitors : List RECT
  /-- Result of `AdjustWindowRect(rc, style, 0)`. -/
  adjustWindowRect : Nat → RECT → RECT
  /-- Result of `GetClientRect(window, &r)`. -/
  clientRect : RECT

/-- Calls that act on the operating system or on a collaborator. -/
inductive Directive where
  | SetWindowText
  /-- Call `ChangeDisplaySettings(&dm, CDS_FULLSCREEN)` for `some dm`,
  `ChangeDisplaySettings(0, 0)` for `none`. -/
  | ChangeDisplaySettings (dm : Option DEVMODE)
  /-- Loop `while (ShowCursor(0) >= 0);` for `false`, `while (ShowCursor(1) < 0);`
  for `true`. -/
  | ShowCursor (visible : Bool)
  | SetWindowLongStyle (style : Nat)
  /-- First `SetWindowPos`: layer (`true` is `HWND_TOPMOST`), x, y, cx, cy. -/
  | SetWindowPos (topmost : Bool) (x y cx cy : Int)
  /-- Second `SetWindowPos` with `SWP_SHOWWINDOW`. -/
  | ShowWindow
  | aspect_save_screenres (w h : Int)
deriving DecidableEq

/-! ## Machine integers -/

/-- Conversion of an `int` to `DWORD`. -/
def toU32 (i : Int) : Nat := (i % 4294967296).toNat

/-- Conversion of a `DWORD` to `int` (two's complement). -/
def toI32 (n : Nat) : Int :=
  if n % 4294967296 < 2147483648 then ((n % 4294967296 : Nat) : Int)
  else ((n % 4294967296 : Nat) : Int) - 4294967296

/-- The constant `INT_MAX`. -/
def INT_MAX : Int := 2147483647

/-- Subtraction of `DWORD` values. -/
def subU32 (a b : Nat) : Nat := (a % 4294967296 + 4294967296 - b % 4294967296) % 4294967296

/-- Multiplication of `DWORD` values. -/
def mulU32 (a b : Nat) : Nat := (a * b) % 4294967296

/-- Two's-complement wrap-around of an `int` result. -/
def wrapI32 (i : Int) : Int := toI32 (toU32 i)

/-! ## Window borders -/

/-- Function `add_window_borders`: `AdjustWindowRect(rc, GetWindowLong(hwnd, GWL_STYLE), 0)`. -/
def add_window_borders (p : Platform) (s : State) (rc : RECT) : RECT :=
  p.adjustWindowRect s.style rc

/-- Function `subtract_window_borders`. -/
def subtract_window_borders (p : Platform) (s : State) (rc : RECT) : RECT :=
  let b := add_window_borders p s ⟨0, 0, 0, 0⟩
  { left := rc.left - b.left, top := rc.top - b.top,
    right := rc.right - b.right, bottom := rc.bottom - b.bottom }

/-! ## Monitor selection -/

/-- Function `mon_enum`, the callback of `EnumDisplayMonitors`: the new state and the
returned `BOOL` (`false` stops the enumeration). -/
def mon_enum (r : RECT) (s : State) : State × Bool :=
  let s1 := { s with xinerama_x := r.left, xinerama_y := r.top,
                     vo_screenwidth := r.right - r.left,
                     vo_screenheight := r.bottom - r.top }
  if s1.mon_cnt = s1.xinerama_screen then (s1, false)
  else ({ s1 with mon_cnt := s1.mon_cnt + 1 }, true)

/-- Call `EnumDisplayMonitors(NULL, NULL, mon_enum, vo)`: the callback is called on
each monitor in order until it returns `FALSE`. -/
def EnumDisplayMonitors : List RECT → State → State
  | [], s => s
  | r :: rs, s =>
    match mon_enum r s with
    | (s1, true) => EnumDisplayMonitors rs s1
    | (s1, false) => s1

/-- Function `w32_update_xinerama_info`. -/
def w32_update_xinerama_info (p : Platform) (s : State) : State × List Directive :=
  let s0 := { s with xinerama_x := 0, xinerama_y := 0 }
  let s1 :=
    if s0.xinerama_screen < -1 then
      let a := { s0 with xinerama_x := p.xVirtualScreen, xinerama_y := p.yVirtualScreen }
      let b := if p.cxVirtualScreen ≠ 0 then { a with vo_screenwidth := p.cxVirtualScreen } else a
      if p.cyVirtualScreen ≠ 0 then { b with vo_screenheight := p.cyVirtualScreen } else b
    else if s0.xinerama_screen = -1 then
      { s0 with xinerama_x := p.windowMonitor.left, xinerama_y := p.windowMonitor.top,
                vo_screenwidth := p.windowMonitor.right - p.windowMonitor.left,
                vo_screenheight := p.windowMonitor.bottom - p.windowMonitor.top }
    else if s0.xinerama_screen > 0 then
      EnumDisplayMonitors p.monitors { s0 with mon_cnt := 0 }
    else s0
  (s1, [Directive.aspect_save_screenres s1.vo_screenwidth s1.vo_screenheight])

/-- Function `updateScreenProperties`. -/
def updateScreenProperties (p : Platform) (s : State) : State × List Directive :=
  match p.currentSettings with
  | none => (s, [])
  | some dm =>
    w32_update_xinerama_info p
      { s with vo_screenwidth := toI32 dm.dmPelsWidth,
               vo_screenheight := toI32 dm.dmPelsHeight,
               depthonscreen := toI32 dm.dmBitsPerPel }

/-! ## Display-mode selection -/

/-- Loop variables of `changeMode`: `bestMode`, `bestScore` and the `DEVMODE`
buffer `dm` that every successful `EnumDisplaySettings` call overwrites. -/
structure ModeSearch where
  bestMode : Int
  bestScore : Int
  dm : DEVMODE
deriving DecidableEq

/-- The `int score` of one enumerated mode: a `DWORD` product converted to `int`. -/
def modeScore (s : State) (m : DEVMODE) : Int :=
  toI32 (mulU32 (subU32 m.dmPelsWidth s.o_dwidth) (subU32 m.dmPelsHeight s.o_dheight))

/-- The `continue` test of the loop of `changeMode` (unsigned comparisons). -/
def modeRejected (s : State) (m : DEVMODE) : Bool :=
  decide (m.dmBitsPerPel % 4294967296 ≠ toU32 s.depthonscreen)
    || decide (m.dmPelsWidth % 4294967296 < s.o_dwidth % 4294967296)
    || decide (m.dmPelsHeight % 4294967296 < s.o_dheight % 4294967296)

/-- One iteration of the loop of `changeMode`, at index `i` with `dm` filled
with the enumerated mode `m`. -/
def changeModeStep (s : State) (i : Int) (m : DEVMODE) (acc : ModeSearch) : ModeSearch :=
  if modeRejected s m then { acc with dm := m }
  else if modeScore s m < acc.bestScore then
    { bestMode := i, bestScore := modeScore s m, dm := m }
  else { acc with dm := m }

/-- The loop `for (i = 0; EnumDisplaySettings(0, i, &dm); ++i)`, started at
index `i`. -/
def changeModeLoop (s : State) : List DEVMODE → Int → ModeSearch → ModeSearch
  | [], _, acc => acc
  | m :: ms, i, acc => changeModeLoop s ms (i + 1) (changeModeStep s i m acc)

/-- The loop variables of `changeMode` after the loop. -/
def changeModeSearch (p : Platform) (s : State) : ModeSearch :=
  changeModeLoop s p.displayModes 0
    { bestMode := -1, bestScore := INT_MAX,
      dm := { dmBitsPerPel := toU32 s.depthonscreen,
              dmPelsWidth := toU32 s.vo_screenwidth,
              dmPelsHeight := toU32 s.vo_screenheight } }

/-- Call `EnumDisplaySettings(0, i, &dm)`: overwrites `dm` when mode `i` exists. -/
def EnumDisplaySettings (p : Platform) (i : Int) (dm : DEVMODE) : DEVMODE :=
  if 0 ≤ i then
    match p.displayModes[i.toNat]? with
    | some m => m
    | none => dm
  else dm

/-- Function `changeMode`. -/
def changeMode (p : Platform) (s : State) : List Directive :=
  if s.vm ≠ 0 then
    let r := changeModeSearch p s
    let dm := if r.bestMode ≠ -1 then EnumDisplaySettings p r.bestMode r.dm else r.dm
    [Directive.ChangeDisplaySettings (some dm)]
  else []

/-- Function `resetMode`. -/
def resetMode (s : State) : List Directive :=
  if s.vm ≠ 0 then [Directive.ChangeDisplaySettings none] else []

/-! ## Window style and window state -/

/-- Win32 style bit `WS_POPUP`. -/
def WS_POPUP : Nat := 0x80000000
/-- Win32 style bits `WS_OVERLAPPEDWINDOW`. -/
def WS_OVERLAPPEDWINDOW : Nat := 0x00CF0000
/-- Win32 style bit `WS_SIZEBOX`. -/
def WS_SIZEBOX : Nat := 0x00040000

/-- Function `update_style`. -/
def update_style (s : State) (style : Nat) : Nat :=
  let NO_FRAME := WS_POPUP
  let FRAME := WS_OVERLAPPEDWINDOW ||| WS_SIZEBOX
  let style1 := (style % 4294967296) &&& (4294967295 ^^^ (NO_FRAME ||| FRAME))
  style1 ||| (if s.vo_border ≠ 0 ∧ ¬ (s.vo_fs ≠ 0) then FRAME else NO_FRAME)

/-- Function `reinit_window_state`. -/
def reinit_window_state (p : Platform) (s : State) : State × List Directive :=
  if 0 ≤ s.WinID then (s, [])
  else
    let toggle_fs : Bool := decide ((if s.current_fs then (1 : Int) else 0) ≠ s.vo_fs)
    let s1 := { s with current_fs := decide (s.vo_fs ≠ 0) }
    let style := update_style s1 s1.style
    let layer : Bool := decide (s1.vo_fs ≠ 0 ∨ s1.vo_ontop ≠ 0)
    let dmode :=
      if s1.vo_fs ≠ 0 then changeMode p s1 ++ [Directive.ShowCursor false]
      else resetMode s1 ++ [Directive.ShowCursor true]
    let (s2, dscreen) := updateScreenProperties p s1
    let s3 :=
      if s2.vo_fs ≠ 0 then
        let a :=
          if toggle_fs then
            { s2 with prev_width := s2.dwidth, prev_height := s2.dheight,
                      prev_x := s2.window_x, prev_y := s2.window_y }
          else s2
        { a with dwidth := a.vo_screenwidth, dheight := a.vo_screenheight,
                 window_x := a.xinerama_x, window_y := a.xinerama_y }
      else
        if toggle_fs then
          { s2 with dwidth := s2.prev_width, dheight := s2.prev_height,
                    window_x := s2.prev_x, window_y := s2.prev_y }
        else s2
    let r : RECT :=
      { left := s3.window_x, right := s3.window_x + s3.dwidth,
        top := s3.window_y, bottom := s3.window_y + s3.dheight }
    let s4 := { s3 with style := style }
    let r1 := add_window_borders p s4 r
    (s4, [Directive.SetWindowText] ++ dmode ++ dscreen ++
         [Directive.SetWindowLongStyle style,
          Directive.SetWindowPos layer r1.left r1.top (r1.right - r1.left) (r1.bottom - r1.top),
          Directive.ShowWindow])

/-- Function `vo_w32_fullscreen`. -/
def vo_w32_fullscreen (p : Platform) (s : State) : State × List Directive :=
  reinit_window_state p { s with vo_fs := if s.vo_fs ≠ 0 then 0 else 1 }

/-- Function `vo_w32_border`. -/
def vo_w32_border (p : Platform) (s : State) : State × List Directive :=
  reinit_window_state p { s with vo_border := if s.vo_border ≠ 0 then 0 else 1 }

/-- Function `vo_w32_ontop`. -/
def vo_w32_ontop (p : Platform) (s : State) : State × List Directive :=
  reinit_window_state p { s with vo_ontop := if s.vo_ontop ≠ 0 then 0 else 1 }

/-! ## Configuration -/

/-- Constants `VOFLAG_*` of `video_out.h` used by `vo_w32_config`; the header is
not part of the sources, so the values are parameters. -/
structure VoFlags where
  VOFLAG_FULLSCREEN : Nat
  VOFLAG_MODESWITCHING : Nat
  VOFLAG_HIDDEN : Nat
  VOFLAG_STEREO : Nat

/-- The body of `vo_w32_config` between the `VOFLAG_HIDDEN` test and the call of
`reinit_window_state`: the state handed to `reinit_window_state`.  The
arguments `width`, `height` and `flags` are `uint32_t` values; an assignment
of one of them to an `int` field is the two's-complement conversion. -/
def vo_w32_config_prepare (F : VoFlags) (p : Platform) (s : State)
    (width height flags : Nat) : State :=
  let reset_size : Bool :=
    !(decide (s.o_dwidth % 4294967296 = width % 4294967296
        ∧ s.o_dheight % 4294967296 = height % 4294967296))
  let s1 := { s with o_dwidth := width % 4294967296, o_dheight := height % 4294967296 }
  let s2 :=
    if s1.WinID < 0 then
      let a :=
        if s1.window_bounds_initialized then
          { s1 with dwidth := p.clientRect.right, dheight := p.clientRect.bottom }
        else
          { s1 with window_bounds_initialized := true,
                    window_x := s1.dx, prev_x := s1.dx,
                    window_y := s1.dy, prev_y := s1.dy }
      let reset_size1 : Bool := if s1.window_bounds_initialized then reset_size else true
      if reset_size1 then
        { a with prev_width := toI32 width, dwidth := toI32 width,
                 prev_height := toI32 height, dheight := toI32 height }
      else a
    else s1
  { s2 with vo_fs := toI32 (flags &&& F.VOFLAG_FULLSCREEN),
            vm := toI32 (flags &&& F.VOFLAG_MODESWITCHING) }

/-- Function `vo_w32_config`, with `pf` the result of `ChoosePixelFormat`: the new
state, the directives issued and the returned `int`.  The device-context and
pixel-format calls change none of the modelled fields and are not recorded. -/
def vo_w32_config (F : VoFlags) (p : Platform) (pf : Int) (s : State)
    (width height flags : Nat) : State × List Directive × Int :=
  if pf = 0 then (s, [], 0)
  else if flags &&& F.VOFLAG_HIDDEN ≠ 0 then (s, [], 1)
  else
    ((reinit_window_state p (vo_w32_config_prepare F p s width height flags)).1,
     (reinit_window_state p (vo_w32_config_prepare F p s width height flags)).2, 1)

/-! ## Aspect-locked resize (`WM_SIZING`) -/

/-- Win32 resize-handle identifier `WMSZ_LEFT`. -/
def WMSZ_LEFT : Int := 1
/-- Win32 resize-handle identifier `WMSZ_RIGHT`. -/
def WMSZ_RIGHT : Int := 2
/-- Win32 resize-handle identifier `WMSZ_TOP`. -/
def WMSZ_TOP : Int := 3
/-- Win32 resize-handle identifier `WMSZ_TOPLEFT`. -/
def WMSZ_TOPLEFT : Int := 4
/-- Win32 resize-handle identifier `WMSZ_TOPRIGHT`. -/
def WMSZ_TOPRIGHT : Int := 5
/-- Win32 resize-handle identifier `WMSZ_BOTTOM`. -/
def WMSZ_BOTTOM : Int := 6
/-- Win32 resize-handle identifier `WMSZ_BOTTOMLEFT`. -/
def WMSZ_BOTTOMLEFT : Int := 7
/-- Win32 resize-handle identifier `WMSZ_BOTTOMRIGHT`. -/
def WMSZ_BOTTOMRIGHT : Int := 8

/-- Function `get_resize_border`: the `switch` over the `WMSZ_*` values. -/
def get_resize_border (v : Int) : Int :=
  if v = WMSZ_LEFT then 3
  else if v = WMSZ_TOP then 2
  else if v = WMSZ_RIGHT then 3
  else if v = WMSZ_BOTTOM then 2
  else if v = WMSZ_TOPLEFT then 1
  else if v = WMSZ_TOPRIGHT then 1
  else if v = WMSZ_BOTTOMLEFT then 3
  else if v = WMSZ_BOTTOMRIGHT then 3
  else -1

/-- Truncation of a rational toward zero. -/
def floatToInt (q : ℚ) : Int := if 0 ≤ q then ⌊q⌋ else ⌈q⌉

/-- Rounding to the nearest integer, ties to the even one. -/
def roundEven (q : ℚ) : Int :=
  if q - ⌊q⌋ < 1 / 2 then ⌊q⌋
  else if 1 / 2 < q - ⌊q⌋ then ⌊q⌋ + 1
  else if ⌊q⌋ % 2 = 0 then ⌊q⌋ else ⌊q⌋ + 1

/-- The spacing of binary32 values around `x`: `2 ^ (e - 23)` for
`2 ^ e ≤ |x| < 2 ^ (e + 1)`, and `2 ^ (-149)` in the subnormal range. -/
def ulp32 (x : ℚ) : ℚ := (2 : ℚ) ^ (max (Int.log 2 |x|) (-126) - 23)

/-- Rounding of an exact value to the binary32 grid, to nearest, ties to even,
before the overflow test. -/
def round32 (x : ℚ) : ℚ := (roundEven (x / ulp32 x) : ℚ) * ulp32 x

/-- The binary32 result of an operation whose exact value is `x`: the rounded
value, or `none` (an infinity) when the rounded value reaches `2 ^ 128`. -/
def roundF32 (x : ℚ) : Option ℚ :=
  if |round32 x| < 2 ^ 128 then some (round32 x) else none

/-- Conversion of a finite `float` to `int`: truncation toward zero, `INT_MIN`
when the truncated value is no `int`. -/
def floatToInt32 (q : ℚ) : Int :=
  if -2147483648 ≤ floatToInt q ∧ floatToInt q ≤ 2147483647 then floatToInt q
  else -2147483648

/-- Conversion of a `float` to `int`; an infinity or a NaN gives `INT_MIN`. -/
def optFloatToInt32 : Option ℚ → Int
  | some q => floatToInt32 q
  | none => -2147483648

/-- The statement `int d_w = c_h * aspect - c_w;`: `c_h` and `c_w` are converted to
`float`, the product and the difference are rounded, the result is converted
to `int`. -/
def sizing_d_w (c_w c_h : Int) (aspect : ℚ) : Int :=
  optFloatToInt32
    ((roundF32 (round32 (c_h : ℚ) * aspect)).bind fun prod =>
      roundF32 (prod - round32 (c_w : ℚ)))

/-- The statement `int d_h = c_w / aspect - c_h;`: a division by zero gives an
infinity or a NaN, hence `INT_MIN`. -/
def sizing_d_h (c_w c_h : Int) (aspect : ℚ) : Int :=
  if aspect = 0 then -2147483648
  else
    optFloatToInt32
      ((roundF32 (round32 (c_w : ℚ) / aspect)).bind fun quot =>
        roundF32 (quot - round32 (c_h : ℚ)))

/-- The statement `corners[corner] -= d_corners[corner]` on two 4-element arrays. -/
def cornersSub (corners d_corners : List Int) (corner : Nat) : List Int :=
  corners.set corner (wrapI32 (corners.getD corner 0 - d_corners.getD corner 0))

/-- The `case WM_SIZING` of `WndProc`, with `aspect` the value of the `float`
`vo->aspdat.asp` and `rc = *(RECT*)lParam`: the rectangle left in `*rc` and
whether the handler returned `TRUE` itself (`false`: it fell through to
`DefWindowProcW`). -/
def WndProc_WM_SIZING (p : Platform) (s : State) (aspect : ℚ) (wParam : Int) (rc : RECT) :
    RECT × Bool :=
  if s.vo_keepaspect ≠ 0 ∧ ¬ (s.vo_fs ≠ 0) ∧ s.WinID < 0 then
    let r := subtract_window_borders p s rc
    let c_w := wrapI32 (r.right - r.left)
    let c_h := wrapI32 (r.bottom - r.top)
    let d_w := sizing_d_w c_w c_h aspect
    let d_h := sizing_d_h c_w c_h aspect
    let d_corners : List Int := [d_w, d_h, wrapI32 (-d_w), wrapI32 (-d_h)]
    let corners : List Int := [rc.left, rc.top, rc.right, rc.bottom]
    let corner := get_resize_border wParam
    let corners1 := if corner ≥ 0 then cornersSub corners d_corners corner.toNat else corners
    ({ left := corners1.getD 0 0, top := corners1.getD 1 0,
       right := corners1.getD 2 0, bottom := corners1.getD 3 0 }, true)
  else (rc, false)

/-- Client width of a window rectangle: the width left by `subtract_window_borders`. -/
def clientWidth (p : Platform) (s : State) (rc : RECT) : Int :=
  (subtract_window_borders p s rc).right - (subtract_window_borders p s rc).left

/-- Client height of a window rectangle: the height left by `subtract_window_borders`. -/
def clientHeight (p : Platform) (s : State) (rc : RECT) : Int :=
  (subtract_window_borders p s rc).bottom - (subtract_window_borders p s rc).top

/-- Coordinate `i` of a rectangle in the order (left, top, right, bottom) of the
`corners` array. -/
def RECT.coord (rc : RECT) (i : Int) : Int :=
  if i = 0 then rc.left else if i = 1 then rc.top else if i = 2 then rc.right
  else if i = 3 then rc.bottom else 0

/-- The value `d_w` the `WM_SIZING` case computes for a requested rectangle. -/
def clientDeltaW (p : Platform) (s : State) (a : ℚ) (rc : RECT) : Int :=
  sizing_d_w (wrapI32 (clientWidth p s rc)) (wrapI32 (clientHeight p s rc)) a

/-- The value `d_h` the `WM_SIZING` case computes for a requested rectangle. -/
def clientDeltaH (p : Platform) (s : State) (a : ℚ) (rc : RECT) : Int :=
  sizing_d_h (wrapI32 (clientWidth p s rc)) (wrapI32 (clientHeight p s rc)) a

/-- All four coordinates are `LONG` values. -/
def RECT.wf (rc : RECT) : Prop :=
  (-2147483648 ≤ rc.left ∧ rc.left < 2147483648)
  ∧ (-2147483648 ≤ rc.top ∧ rc.top < 2147483648)
  ∧ (-2147483648 ≤ rc.right ∧ rc.right < 2147483648)
  ∧ (-2147483648 ≤ rc.bottom ∧ rc.bottom < 2147483648)

instance (rc : RECT) : Decidable rc.wf := by
  unfold RECT.wf; infer_instance

/-- All four coordinates are below `2 ^ 30` in magnitude. -/
def RECT.small (rc : RECT) : Prop :=
  (-1073741824 < rc.left ∧ rc.left < 1073741824)
  ∧ (-1073741824 < rc.top ∧ rc.top < 1073741824)
  ∧ (-1073741824 < rc.right ∧ rc.right < 1073741824)
  ∧ (-1073741824 < rc.bottom ∧ rc.bottom < 1073741824)

instance (rc : RECT) : Decidable rc.small := by
  unfold RECT.small; infer_instance

/-! ## Keyboard input (`WM_CHAR`) -/

/-- Constants of `input/keycodes.h` used by the character handler; the header is
not part of the sources, so the values are parameters. -/
structure Keycodes where
  KEY_MODIFIER_CTRL : Nat
  KEY_MODIFIER_SHIFT : Nat
  KEY_MODIFIER_ALT : Nat
  KEY_ENTER : Nat

/-- Win32 virtual key `VK_RETURN`. -/
def VK_RETURN : Nat := 0x0D
/-- Win32 virtual key `VK_SHIFT`. -/
def VK_SHIFT : Nat := 0x10
/-- Win32 virtual key `VK_CONTROL`. -/
def VK_CONTROL : Nat := 0x11
/-- Win32 virtual key `VK_MENU`. -/
def VK_MENU : Nat := 0x12
/-- Win32 virtual key `VK_RMENU`. -/
def VK_RMENU : Nat := 0xA5

/-- Function `key_state`: `GetKeyState(vk) & 0x8000`, with the live key state given
as the set `ks` of keys that are down. -/
def key_state (ks : Nat → Bool) (vk : Nat) : Bool := ks vk

/-- Function `mod_state`. -/
def mod_state (K : Keycodes) (ks : Nat → Bool) : Nat :=
  let res := 0
  let res := if key_state ks VK_CONTROL then res ||| K.KEY_MODIFIER_CTRL else res
  let res := if key_state ks VK_SHIFT then res ||| K.KEY_MODIFIER_SHIFT else res
  let res := if key_state ks VK_MENU then res ||| K.KEY_MODIFIER_ALT else res
  res

/-- The operation `m & ~k` on non-negative values. -/
def andNot (m k : Nat) : Nat := m ^^^ (m &&& k)

/-- The `case WM_CHAR` / `case WM_SYSCHAR` of `WndProc`, with `wParam` already
converted to `int`: the key codes passed to `mplayer_put_key`, in order, and
whether the handler returned `0` itself (`false`: it fell through to
`DefWindowProcW`). -/
def WndProc_WM_CHAR (K : Keycodes) (ks : Nat → Bool) (wParam : Int) : List Nat × Bool :=
  let mods := mod_state K ks
  let code := wParam
  let mods :=
    if key_state ks VK_RMENU then andNot mods (K.KEY_MODIFIER_CTRL ||| K.KEY_MODIFIER_ALT)
    else mods
  let code :=
    if (mods &&& K.KEY_MODIFIER_CTRL) ≠ 0 ∧ code ≥ 1 ∧ code ≤ 26
        ∧ ¬ (key_state ks VK_RETURN = true) then
      code - 1 + (if (mods &&& K.KEY_MODIFIER_SHIFT) ≠ 0 then 65 else 97)
    else code
  if code ≥ 32 ∧ code < 2097152 then ([code.toNat ||| mods], true)
  else ([], false)

/-! ## Example data -/

/-- A windowed, non-embedded 640x480 window at (100, 50). -/
def exampleState : State :=
  { prev_width := 0, prev_height := 0, prev_x := 0, prev_y := 0,
    window_bounds_initialized := true, current_fs := false,
    window_x := 100, window_y := 50, o_dwidth := 640, o_dheight := 480,
    vm := 0, depthonscreen := 32, event_flags := 0, mon_cnt := 0,
    dwidth := 640, dheight := 480, dx := 100, dy := 50,
    vo_screenwidth := 1920, vo_screenheight := 1080, vo_ontop := 0,
    vo_fs := 0, vo_border := 1, vo_keepaspect := 1, WinID := -1,
    xinerama_screen := -1, xinerama_x := 0, xinerama_y := 0,
    style := 0x00CF0000 }

/-- A system with one 1920x1080 monitor at 32 bits and an 8/31/8/8 window frame. -/
def examplePlatform : Platform :=
  { displayModes := [⟨32, 1920, 1080⟩, ⟨32, 1600, 900⟩, ⟨32, 2560, 1440⟩],
    currentSettings := some ⟨32, 1920, 1080⟩,
    xVirtualScreen := 0, yVirtualScreen := 0,
    cxVirtualScreen := 1920, cyVirtualScreen := 1080,
    windowMonitor := ⟨0, 0, 1920, 1080⟩,
    monitors := [⟨0, 0, 1920, 1080⟩],
    adjustWindowRect := fun _ rc => ⟨rc.left - 8, rc.top - 31, rc.right + 8, rc.bottom + 8⟩,
    clientRect := ⟨0, 0, 640, 480⟩ }

/-- The example window with mode switching enabled and a requested video size
of `w` x `h`. -/
def modeRequest (w h : Nat) : State :=
  { exampleState with vm := 1, o_dwidth := w, o_dheight := h }

/-- A system on a 1920 x 1080 desktop at 32 bits that enumerates the modes
1920 x 1080 at 32 bits and 640 x 480 at 16 bits. -/
def fallbackPlatform : Platform :=
  { examplePlatform with displayModes := [⟨32, 1920, 1080⟩, ⟨16, 640, 480⟩] }

/-- No odd number `2 * k + 1` with `lo ≤ k < lo + len` divides `INT_MAX`; the
range is checked by halving, `fuel` bounds the depth. -/
def noOddDivisorIn : Nat → Nat → Nat → Bool
  | 0, lo, len =>
    decide (len = 0) || (decide (len = 1) && decide (2147483647 % (2 * lo + 1) ≠ 0))
  | fuel + 1, lo, len =>
    if len ≤ 1 then decide (len = 0) || decide (2147483647 % (2 * lo + 1) ≠ 0)
    else noOddDivisorIn fuel lo (len / 2) && noOddDivisorIn fuel (lo + len / 2) (len - len / 2)

/-- A system with two monitors: 1920x1080 at the origin and 1280x1024 to its right. -/
def twoMonitorPlatform : Platform :=
  { examplePlatform with monitors := [⟨0, 0, 1920, 1080⟩, ⟨1920, 0, 3200, 1024⟩] }

/-- The screen rectangle the resolver leaves in the state: origin
(`xinerama_x`, `xinerama_y`) and size (`vo_screenwidth`, `vo_screenheight`). -/
def screenRect (s : State) : Int × Int × Int × Int :=
  (s.xinerama_x, s.xinerama_y, s.vo_screenwidth, s.vo_screenheight)

/-- Origin and size of a monitor rectangle. -/
def RECT.originSize (r : RECT) : Int × Int × Int × Int :=
  (r.left, r.top, r.right - r.left, r.bottom - r.top)

/-- The modifier constants are non-zero and the Shift bits are disjoint from the
Ctrl and Alt bits. -/
def Keycodes.distinctBits (K : Keycodes) : Prop :=
  K.KEY_MODIFIER_CTRL ≠ 0 ∧ K.KEY_MODIFIER_SHIFT ≠ 0
  ∧ K.KEY_MODIFIER_CTRL &&& K.KEY_MODIFIER_SHIFT = 0
  ∧ K.KEY_MODIFIER_ALT &&& K.KEY_MODIFIER_SHIFT = 0

instance (K : Keycodes) : Decidable K.distinctBits := by
  unfold Keycodes.distinctBits; infer_instance

/-- Example values of the key constants: one bit per modifier above the
character range, and 13 for Enter. -/
def exampleKeycodes : Keycodes :=
  { KEY_MODIFIER_SHIFT := 4194304, KEY_MODIFIER_CTRL := 8388608,
    KEY_MODIFIER_ALT := 16777216, KEY_ENTER := 13 }

/-- Key state with only Ctrl down. -/
def ctrlDown : Nat → Bool := fun vk => decide (vk = VK_CONTROL)

/-- Key state with Ctrl and Enter down. -/
def ctrlEnterDown : Nat → Bool := fun vk => decide (vk = VK_CONTROL) || decide (vk = VK_RETURN)

/-- Example values of the configuration flags, one bit each. -/
def exampleVoFlags : VoFlags :=
  { VOFLAG_FULLSCREEN := 1, VOFLAG_MODESWITCHING := 2, VOFLAG_HIDDEN := 16,
    VOFLAG_STEREO := 32 }

/-- The example system after the user resized the window to a client area of
800 x 600. -/
def resizedPlatform : Platform :=
  { examplePlatform with clientRect := ⟨0, 0, 800, 600⟩ }

/-- The example window before its first configuration, with the caller-chosen
position (640, 300). -/
def freshState : State :=
  { exampleState with window_bounds_initialized := false, o_dwidth := 0, o_dheight := 0,
                      window_x := 0, window_y := 0, dwidth := 100, dheight := 100,
                      dx := 640, dy := 300 }

/-- The frame bits `FRAME` of `update_style`. -/
def frameBits : Nat := WS_OVERLAPPEDWINDOW ||| WS_SIZEBOX

/-- The bits `NO_FRAME | FRAME` that `update_style` rewrites. -/
def styleMask : Nat := WS_POPUP ||| (WS_OVERLAPPEDWINDOW ||| WS_SIZEBOX)

/-! ## Display-mode selection: the selection criterion -/

/-- A mode survives the filter: its depth equals the requested depth
(`depthonscreen`) and it is at least as wide and as high as the target
(`o_dwidth`, `o_dheight`). -/
def modeCovers (s : State) (m : DEVMODE) : Prop :=
  m.dmBitsPerPel = toU32 s.depthonscreen ∧ s.o_dwidth ≤ m.dmPelsWidth
    ∧ s.o_dheight ≤ m.dmPelsHeight

instance (s : State) (m : DEVMODE) : Decidable (modeCovers s m) := by
  unfold modeCovers; infer_instance

/-- The exact (unbounded) product `(width - targetW) * (height - targetH)`. -/
def coverArea (s : State) (m : DEVMODE) : Int :=
  ((m.dmPelsWidth : Int) - (s.o_dwidth : Int)) * ((m.dmPelsHeight : Int) - (s.o_dheight : Int))

/-- All three fields of a mode are `DWORD` values. -/
def DEVMODE.wf (m : DEVMODE) : Prop :=
  m.dmBitsPerPel < 4294967296 ∧ m.dmPelsWidth < 4294967296 ∧ m.dmPelsHeight < 4294967296

instance (m : DEVMODE) : Decidable m.wf := by
  unfold DEVMODE.wf; infer_instance

/-- Mode `m` at index `k` of `ms` is the first one, in enumeration order, with
the least `score` among the modes the loop does not reject. -/
def FirstBest (s : State) (ms : List DEVMODE) (k : Nat) (m : DEVMODE) : Prop :=
  ms[k]? = some m ∧ modeRejected s m = false
  ∧ (∀ (j : Nat) (mj : DEVMODE), ms[j]? = some mj → modeRejected s mj = false →
      modeScore s m ≤ modeScore s mj)
  ∧ (∀ (j : Nat) (mj : DEVMODE), j < k → ms[j]? = some mj → modeRejected s mj = false →
      modeScore s m < modeScore s mj)

/-! ## Frame of the screen queries -/

/-- The window bookkeeping that the screen queries do not touch. -/
def SameWindow (a b : State) : Prop :=
  a.window_x = b.window_x ∧ a.window_y = b.window_y ∧ a.dwidth = b.dwidth
  ∧ a.dheight = b.dheight ∧ a.prev_x = b.prev_x ∧ a.prev_y = b.prev_y
  ∧ a.prev_width = b.prev_width ∧ a.prev_height = b.prev_height
  ∧ a.vo_fs = b.vo_fs ∧ a.current_fs = b.current_fs ∧ a.WinID = b.WinID
  ∧ a.vm = b.vm ∧ a.style = b.style

/-- The bookkeeping of `reinit_window_state` after `updateScreenProperties`:
save or restore the windowed geometry, then record the new style. -/
def reinitAfterScreen (toggle_fs : Bool) (style : Nat) (s2 : State) : State :=
  let s3 :=
    if s2.vo_fs ≠ 0 then
      let a :=
        if toggle_fs then
          { s2 with prev_width := s2.dwidth, prev_height := s2.dheight,
                    prev_x := s2.window_x, prev_y := s2.window_y }
        else s2
      { a with dwidth := a.vo_screenwidth, dheight := a.vo_screenheight,
               window_x := a.xinerama_x, window_y := a.xinerama_y }
    else
      if toggle_fs then
        { s2 with dwidth := s2.prev_width, dheight := s2.prev_height,
                  window_x := s2.prev_x, window_y := s2.prev_y }
      else s2
  { s3 with style := style }

/-- The configuration bookkeeping that the screen queries do not touch. -/
def SameRequest (a b : State) : Prop :=
  a.window_bounds_initialized = b.window_bounds_initialized
  ∧ a.o_dwidth = b.o_dwidth ∧ a.o_dheight = b.o_dheight

theorem SameWindow.refl (a : State) : SameWindow a a := by
  simp [SameWindow]

theorem SameWindow.trans {a b c : State} (h1 : SameWindow a b) (h2 : SameWindow b c) :
    SameWindow a c := by
  simp only [SameWindow] at *
  obtain ⟨a1, a2, a3, a4, a5, a6, a7, a8, a9, a10, a11, a12, a13⟩ := h1
  obtain ⟨b1, b2, b3, b4, b5, b6, b7, b8, b9, b10, b11, b12, b13⟩ := h2
  exact ⟨a1.trans b1, a2.trans b2, a3.trans b3, a4.trans b4, a5.trans b5, a6.trans b6,
    a7.trans b7, a8.trans b8, a9.trans b9, a10.trans b10, a11.trans b11, a12.trans b12,
    a13.trans b13⟩

theorem mon_enum_sameWindow (r : RECT) (s : State) : SameWindow (mon_enum r s).1 s := by
  unfold mon_enum
  simp only
  split <;> simp [SameWindow]

theorem EnumDisplayMonitors_sameWindow (rs : List RECT) (s : State) :
    SameWindow (EnumDisplayMonitors rs s) s := by
  induction rs generalizing s with
  | nil => exact SameWindow.refl s
  | cons r rs ih =>
    have h := mon_enum_sameWindow r s
    unfold EnumDisplayMonitors
    rcases hm : mon_enum r s with ⟨s1, b⟩
    rw [hm] at h
    cases b
    · exact h
    · exact SameWindow.trans (ih s1) h

theorem w32_update_xinerama_info_sameWindow (p : Platform) (s : State) :
    SameWindow (w32_update_xinerama_info p s).1 s := by
  unfold w32_update_xinerama_info
  simp only
  split_ifs
  all_goals first
    | (simp [SameWindow]; done)
    | exact SameWindow.trans (EnumDisplayMonitors_sameWindow _ _) (by simp [SameWindow])

theorem updateScreenProperties_sameWindow (p : Platform) (s : State) :
    SameWindow (updateScreenProperties p s).1 s := by
  unfold updateScreenProperties
  cases p.currentSettings with
  | none => exact SameWindow.refl s
  | some dm =>
    exact SameWindow.trans (w32_update_xinerama_info_sameWindow p _) (by simp [SameWindow])

/-- The state left by `reinit_window_state` on a non-embedded window. -/
theorem reinit_window_state_fst (p : Platform) (s : State) (hwin : s.WinID < 0) :
    (reinit_window_state p s).1 =
      reinitAfterScreen (decide ((if s.current_fs then (1 : Int) else 0) ≠ s.vo_fs))
        (update_style { s with current_fs := decide (s.vo_fs ≠ 0) } s.style)
        (updateScreenProperties p { s with current_fs := decide (s.vo_fs ≠ 0) }).1 := by
  unfold reinit_window_state
  rw [if_neg (not_le.mpr hwin)]
  rfl

/-- Fields of `reinitAfterScreen` when fullscreen is entered. -/
theorem reinitAfterScreen_enter (style : Nat) (u : State) (h : u.vo_fs ≠ 0) :
    let r := reinitAfterScreen true style u
    (r.prev_x = u.window_x ∧ r.prev_y = u.window_y
      ∧ r.prev_width = u.dwidth ∧ r.prev_height = u.dheight)
    ∧ (r.window_x = r.xinerama_x ∧ r.window_y = r.xinerama_y
      ∧ r.dwidth = r.vo_screenwidth ∧ r.dheight = r.vo_screenheight)
    ∧ r.vo_fs = u.vo_fs ∧ r.current_fs = u.current_fs ∧ r.WinID = u.WinID := by
  simp [reinitAfterScreen, h]

/-- Fields of `reinitAfterScreen` when fullscreen is left. -/
theorem reinitAfterScreen_leave (style : Nat) (u : State) (h : u.vo_fs = 0) :
    let r := reinitAfterScreen true style u
    (r.window_x = u.prev_x ∧ r.window_y = u.prev_y
      ∧ r.dwidth = u.prev_width ∧ r.dheight = u.prev_height)
    ∧ r.vo_fs = u.vo_fs ∧ r.current_fs = u.current_fs := by
  simp [reinitAfterScreen, h]

/-- Entering fullscreen from a windowed state: the geometry is saved, then set
to the screen rectangle. -/
theorem vo_w32_fullscreen_enter (p : Platform) (s : State)
    (hwin : s.WinID < 0) (hcur : s.current_fs = false) (hfs : s.vo_fs = 0) :
    let s1 := (vo_w32_fullscreen p s).1
    (s1.prev_x = s.window_x ∧ s1.prev_y = s.window_y
      ∧ s1.prev_width = s.dwidth ∧ s1.prev_height = s.dheight)
    ∧ (s1.window_x = s1.xinerama_x ∧ s1.window_y = s1.xinerama_y
      ∧ s1.dwidth = s1.vo_screenwidth ∧ s1.dheight = s1.vo_screenheight)
    ∧ s1.vo_fs = 1 ∧ s1.current_fs = true ∧ s1.WinID = s.WinID := by
  intro s1
  have e : s1 = (reinit_window_state p { s with vo_fs := 1 }).1 := by
    show (vo_w32_fullscreen p s).1 = _
    unfold vo_w32_fullscreen
    rw [hfs]; rfl
  rw [reinit_window_state_fst p { s with vo_fs := 1 } hwin] at e
  have k := updateScreenProperties_sameWindow p
    { s with vo_fs := 1, current_fs := decide ((1 : Int) ≠ 0) }
  simp only [SameWindow] at k
  obtain ⟨k1, k2, k3, k4, k5, k6, k7, k8, k9, k10, k11, k12, k13⟩ := k
  have tg : decide ((if s.current_fs then (1 : Int) else 0) ≠ 1) = true := by
    rw [hcur]; decide
  have g := reinitAfterScreen_enter
    (update_style { s with vo_fs := 1, current_fs := decide ((1 : Int) ≠ 0) } s.style)
    (updateScreenProperties p { s with vo_fs := 1, current_fs := decide ((1 : Int) ≠ 0) }).1
    (by rw [k9]; decide)
  simp only [tg] at e
  rw [← e] at g
  obtain ⟨⟨g1, g2, g3, g4⟩, gs, g5, g6, g7⟩ := g
  exact ⟨⟨g1.trans k1, g2.trans k2, g3.trans k3, g4.trans k4⟩, gs, g5.trans k9,
    g6.trans (k10.trans (by decide)), g7.trans k11⟩

/-- Leaving fullscreen: the saved geometry is restored. -/
theorem vo_w32_fullscreen_leave (p : Platform) (s : State)
    (hwin : s.WinID < 0) (hcur : s.current_fs = true) (hfs : s.vo_fs = 1) :
    let s1 := (vo_w32_fullscreen p s).1
    (s1.window_x = s.prev_x ∧ s1.window_y = s.prev_y
      ∧ s1.dwidth = s.prev_width ∧ s1.dheight = s.prev_height)
    ∧ s1.vo_fs = 0 ∧ s1.current_fs = false := by
  intro s1
  have e : s1 = (reinit_window_state p { s with vo_fs := 0 }).1 := by
    show (vo_w32_fullscreen p s).1 = _
    unfold vo_w32_fullscreen
    rw [hfs]; rfl
  rw [reinit_window_state_fst p { s with vo_fs := 0 } hwin] at e
  have k := updateScreenProperties_sameWindow p
    { s with vo_fs := 0, current_fs := decide ((0 : Int) ≠ 0) }
  simp only [SameWindow] at k
  obtain ⟨k1, k2, k3, k4, k5, k6, k7, k8, k9, k10, k11, k12, k13⟩ := k
  have tg : decide ((if s.current_fs then (1 : Int) else 0) ≠ 0) = true := by
    rw [hcur]; decide
  have g := reinitAfterScreen_leave
    (update_style { s with vo_fs := 0, current_fs := decide ((0 : Int) ≠ 0) } s.style)
    (updateScreenProperties p { s with vo_fs := 0, current_fs := decide ((0 : Int) ≠ 0) }).1
    k9
  simp only [tg] at e
  rw [← e] at g
  obtain ⟨⟨g1, g2, g3, g4⟩, g5, g6⟩ := g
  exact ⟨⟨g1.trans k5, g2.trans k6, g3.trans k7, g4.trans k8⟩, g5.trans k9,
    g6.trans (k10.trans (by decide))⟩

/-! ## Fullscreen toggle -/

/-- C1. For every non-embedded state whose recorded fullscreen status
(`current_fs`) agrees with the fullscreen flag (`vo_fs`) and is windowed, and
for every pair of system answers, two calls of `vo_w32_fullscreen` in a row
leave position and size equal to the starting (x, y, w, h): the first call
stores (x, y, w, h) in `prev_x`, `prev_y`, `prev_width`, `prev_height` and sets
the geometry to the resolved screen rectangle, the second call restores the
saved geometry. -/
theorem fullscreen_toggle_twice_restores (p1 p2 : Platform) (s : State)
    (hwin : s.WinID < 0) (hcur : s.current_fs = false) (hfs : s.vo_fs = 0) :
    let s1 := (vo_w32_fullscreen p1 s).1
    let s2 := (vo_w32_fullscreen p2 s1).1
    (s1.prev_x = s.window_x ∧ s1.prev_y = s.window_y
      ∧ s1.prev_width = s.dwidth ∧ s1.prev_height = s.dheight)
    ∧ (s1.window_x = s1.xinerama_x ∧ s1.window_y = s1.xinerama_y
      ∧ s1.dwidth = s1.vo_screenwidth ∧ s1.dheight = s1.vo_screenheight)
    ∧ (s2.window_x = s.window_x ∧ s2.window_y = s.window_y
      ∧ s2.dwidth = s.dwidth ∧ s2.dheight = s.dheight)
    ∧ s2.vo_fs = 0 ∧ s2.current_fs = false := by
  intro s1 s2
  obtain ⟨hsave, hscreen, hfs1, hcur1, hwin1⟩ := vo_w32_fullscreen_enter p1 s hwin hcur hfs
  obtain ⟨hrest, hfs2, hcur2⟩ :=
    vo_w32_fullscreen_leave p2 s1 (by rw [hwin1]; exact hwin) hcur1 hfs1
  refine ⟨hsave, hscreen, ?_, hfs2, hcur2⟩
  obtain ⟨a1, a2, a3, a4⟩ := hsave
  obtain ⟨b1, b2, b3, b4⟩ := hrest
  exact ⟨b1.trans a1, b2.trans a2, b3.trans a3, b4.trans a4⟩

/-- Witness of C1 on the example window and system. -/
theorem fullscreen_toggle_twice_restores_witness :
    exampleState.WinID < 0 ∧ exampleState.current_fs = false ∧ exampleState.vo_fs = 0
    ∧ ((vo_w32_fullscreen examplePlatform
          (vo_w32_fullscreen examplePlatform exampleState).1).1.window_x = 100
      ∧ (vo_w32_fullscreen examplePlatform
          (vo_w32_fullscreen examplePlatform exampleState).1).1.dwidth = 640) :=
  ⟨by decide, rfl, rfl,
    (fullscreen_toggle_twice_restores examplePlatform examplePlatform exampleState
      (by decide) rfl rfl).2.2.1.1,
    (fullscreen_toggle_twice_restores examplePlatform examplePlatform exampleState
      (by decide) rfl rfl).2.2.1.2.2.1⟩

/-! ## Display-mode selection -/

/-- Invariant of the loop of `changeMode`: either no remaining mode improves on
the best score so far and the best mode is unchanged, or the loop ends on the
first remaining mode of least score. -/
theorem changeModeLoop_spec (s : State) (ms : List DEVMODE) (i : Int) (acc : ModeSearch) :
    ((changeModeLoop s ms i acc).bestMode = acc.bestMode
      ∧ (changeModeLoop s ms i acc).bestScore = acc.bestScore
      ∧ ∀ m ∈ ms, modeRejected s m = false → acc.bestScore ≤ modeScore s m)
    ∨ (∃ k m, FirstBest s ms k m
        ∧ (changeModeLoop s ms i acc).bestMode = i + k
        ∧ (changeModeLoop s ms i acc).bestScore = modeScore s m
        ∧ modeScore s m < acc.bestScore) := by
  induction ms generalizing i acc with
  | nil => left; simp [changeModeLoop]
  | cons m rest ih =>
    rw [changeModeLoop]
    by_cases hbetter : modeRejected s m = false ∧ modeScore s m < acc.bestScore
    · -- the head becomes the best mode so far
      have hstep : changeModeStep s i m acc
          = { bestMode := i, bestScore := modeScore s m, dm := m } := by
        simp [changeModeStep, hbetter.1, hbetter.2]
      rw [hstep]
      rcases ih (i + 1) { bestMode := i, bestScore := modeScore s m, dm := m } with
        ⟨h1, h2, h3⟩ | ⟨k, mk, hfb, h1, h2, h3⟩
      · right
        refine ⟨0, m, ⟨by simp, hbetter.1, ?_, ?_⟩, by simpa using h1, h2, hbetter.2⟩
        · intro j mj hj hrej
          cases j with
          | zero => simp at hj; subst hj; exact le_refl _
          | succ j =>
            simp at hj
            exact h3 mj (List.getElem?_mem hj) hrej
        · intro j mj hj; omega
      · right
        obtain ⟨f1, f2, f3, f4⟩ := hfb
        simp only at h3
        refine ⟨k + 1, mk, ⟨by simpa using f1, f2, ?_, ?_⟩, ?_, h2, lt_trans h3 hbetter.2⟩
        · intro j mj hj hrej
          cases j with
          | zero => simp at hj; subst hj; exact le_of_lt h3
          | succ j => simp at hj; exact f3 j mj hj hrej
        · intro j mj hjk hj hrej
          cases j with
          | zero => simp at hj; subst hj; exact h3
          | succ j => simp at hj; exact f4 j mj (by omega) hj hrej
        · rw [h1]; push_cast; ring
    · -- the head leaves the best mode unchanged
      have hstep : changeModeStep s i m acc = { acc with dm := m } := by
        unfold changeModeStep
        by_cases hr : modeRejected s m = true
        · simp [hr]
        · have hr2 : modeRejected s m = false := by simpa using hr
          have : ¬ modeScore s m < acc.bestScore := fun h => hbetter ⟨hr2, h⟩
          simp [hr2, this]
      have hhead : modeRejected s m = false → acc.bestScore ≤ modeScore s m := by
        intro hr
        exact not_lt.mp (fun h => hbetter ⟨hr, h⟩)
      rw [hstep]
      rcases ih (i + 1) { acc with dm := m } with
        ⟨h1, h2, h3⟩ | ⟨k, mk, hfb, h1, h2, h3⟩
      · left
        refine ⟨h1, h2, ?_⟩
        intro m1 hm1 hrej
        rcases List.mem_cons.mp hm1 with e | e
        · subst e; exact hhead hrej
        · exact h3 m1 e hrej
      · right
        obtain ⟨f1, f2, f3, f4⟩ := hfb
        simp only at h3
        refine ⟨k + 1, mk, ⟨by simpa using f1, f2, ?_, ?_⟩, ?_, h2, h3⟩
        · intro j mj hj hrej
          cases j with
          | zero => simp at hj; subst hj; exact le_trans (le_of_lt h3) (hhead hrej)
          | succ j => simp at hj; exact f3 j mj hj hrej
        · intro j mj hjk hj hrej
          cases j with
          | zero => simp at hj; subst hj; exact lt_of_lt_of_le h3 (hhead hrej)
          | succ j => simp at hj; exact f4 j mj (by omega) hj hrej
        · rw [h1]; push_cast; ring

/-- On `DWORD` values the `continue` test rejects exactly the modes that do not
cover the request. -/
theorem modeRejected_eq_false_iff (s : State) (m : DEVMODE) (hm : m.wf)
    (how : s.o_dwidth < 4294967296) (hoh : s.o_dheight < 4294967296) :
    modeRejected s m = false ↔ modeCovers s m := by
  obtain ⟨h1, h2, h3⟩ := hm
  simp only [modeRejected, modeCovers, Bool.or_eq_false_iff, decide_eq_false_iff_not,
    Nat.mod_eq_of_lt h1, Nat.mod_eq_of_lt h2, Nat.mod_eq_of_lt h3, Nat.mod_eq_of_lt how,
    Nat.mod_eq_of_lt hoh, not_lt, not_not, ne_eq, and_assoc]

/-- The `int score` of a covering mode is the exact product when that product
fits in an `int`. -/
theorem modeScore_eq_coverArea (s : State) (m : DEVMODE) (hm : m.wf)
    (hc : modeCovers s m) (hfit : coverArea s m ≤ INT_MAX) :
    modeScore s m = coverArea s m := by
  obtain ⟨_, h2, h3⟩ := hm
  obtain ⟨_, c2, c3⟩ := hc
  have how : s.o_dwidth < 4294967296 := lt_of_le_of_lt c2 h2
  have hoh : s.o_dheight < 4294967296 := lt_of_le_of_lt c3 h3
  have e1 : subU32 m.dmPelsWidth s.o_dwidth = m.dmPelsWidth - s.o_dwidth := by
    unfold subU32
    rw [Nat.mod_eq_of_lt h2, Nat.mod_eq_of_lt how]
    omega
  have e2 : subU32 m.dmPelsHeight s.o_dheight = m.dmPelsHeight - s.o_dheight := by
    unfold subU32
    rw [Nat.mod_eq_of_lt h3, Nat.mod_eq_of_lt hoh]
    omega
  have earea : coverArea s m
      = (((m.dmPelsWidth - s.o_dwidth) * (m.dmPelsHeight - s.o_dheight) : Nat) : Int) := by
    unfold coverArea
    push_cast [Nat.cast_sub c2, Nat.cast_sub c3]
    ring
  have hlt : (m.dmPelsWidth - s.o_dwidth) * (m.dmPelsHeight - s.o_dheight) < 2147483648 := by
    have : (((m.dmPelsWidth - s.o_dwidth) * (m.dmPelsHeight - s.o_dheight) : Nat) : Int)
        ≤ 2147483647 := by rw [← earea]; exact hfit
    omega
  unfold modeScore
  rw [e1, e2, earea]
  unfold mulU32 toI32
  have hmod : (m.dmPelsWidth - s.o_dwidth) * (m.dmPelsHeight - s.o_dheight) % 4294967296
      = (m.dmPelsWidth - s.o_dwidth) * (m.dmPelsHeight - s.o_dheight) :=
    Nat.mod_eq_of_lt (by omega)
  rw [Nat.mod_mod, hmod, if_pos hlt]

/-- Selection under a score bound: with mode switching enabled, `DWORD` mode
fields and every covering mode's product strictly below `INT_MAX`, `changeMode`
selects the first index among the covering modes of least product. -/
theorem changeMode_selects_first_least_cover (p : Platform) (s : State)
    (hvm : s.vm ≠ 0)
    (how : s.o_dwidth < 4294967296) (hoh : s.o_dheight < 4294967296)
    (hwf : ∀ m ∈ p.displayModes, m.wf)
    (hsmall : ∀ m ∈ p.displayModes, modeCovers s m → coverArea s m < INT_MAX)
    (hex : ∃ m ∈ p.displayModes, modeCovers s m) :
    ∃ (k : Nat) (m : DEVMODE), p.displayModes[k]? = some m ∧ modeCovers s m
      ∧ (∀ (j : Nat) (mj : DEVMODE), p.displayModes[j]? = some mj → modeCovers s mj →
          coverArea s m ≤ coverArea s mj)
      ∧ (∀ (j : Nat) (mj : DEVMODE), j < k → p.displayModes[j]? = some mj → modeCovers s mj →
          coverArea s m < coverArea s mj)
      ∧ (changeModeSearch p s).bestMode = k
      ∧ changeMode p s = [Directive.ChangeDisplaySettings (some m)] := by
  have hrej : ∀ m ∈ p.displayModes, (modeRejected s m = false ↔ modeCovers s m) :=
    fun m hm => modeRejected_eq_false_iff s m (hwf m hm) how hoh
  have hsc : ∀ m ∈ p.displayModes, modeCovers s m → modeScore s m = coverArea s m :=
    fun m hm hc => modeScore_eq_coverArea s m (hwf m hm) hc (le_of_lt (hsmall m hm hc))
  rcases changeModeLoop_spec s p.displayModes 0
      { bestMode := -1, bestScore := INT_MAX,
        dm := { dmBitsPerPel := toU32 s.depthonscreen,
                dmPelsWidth := toU32 s.vo_screenwidth,
                dmPelsHeight := toU32 s.vo_screenheight } } with
    ⟨_, _, h3⟩ | ⟨k, m, ⟨f1, f2, f3, f4⟩, h1, _, _⟩
  · -- impossible: a covering mode scores below INT_MAX
    obtain ⟨m, hm, hc⟩ := hex
    have := h3 m hm ((hrej m hm).mpr hc)
    rw [hsc m hm hc] at this
    exact absurd (hsmall m hm hc) (not_lt.mpr this)
  · have hmem : m ∈ p.displayModes := List.getElem?_mem f1
    have hc : modeCovers s m := (hrej m hmem).mp f2
    have hbest : (changeModeSearch p s).bestMode = k := by
      unfold changeModeSearch; rw [h1]; simp
    refine ⟨k, m, f1, hc, ?_, ?_, hbest, ?_⟩
    · intro j mj hj hcj
      have hmj : mj ∈ p.displayModes := List.getElem?_mem hj
      have := f3 j mj hj ((hrej mj hmj).mpr hcj)
      rwa [hsc m hmem hc, hsc mj hmj hcj] at this
    · intro j mj hjk hj hcj
      have hmj : mj ∈ p.displayModes := List.getElem?_mem hj
      have := f4 j mj hjk hj ((hrej mj hmj).mpr hcj)
      rwa [hsc m hmem hc, hsc mj hmj hcj] at this
    · unfold changeMode
      rw [if_pos hvm]
      simp only [hbest]
      have hne : ((k : Nat) : Int) ≠ -1 := by omega
      rw [if_pos hne]
      unfold EnumDisplaySettings
      rw [if_pos (by omega)]
      simp [f1]

/-- Soundness of the divisor check. -/
theorem noOddDivisorIn_sound (fuel lo len : Nat) (h : noOddDivisorIn fuel lo len = true)
    (k : Nat) (h1 : lo ≤ k) (h2 : k < lo + len) : 2147483647 % (2 * k + 1) ≠ 0 := by
  induction fuel generalizing lo len with
  | zero =>
    simp only [noOddDivisorIn, Bool.or_eq_true, Bool.and_eq_true, decide_eq_true_eq] at h
    rcases h with h | ⟨h, h3⟩
    · omega
    · have : k = lo := by omega
      subst this; exact h3
  | succ f ih =>
    rw [noOddDivisorIn] at h
    split_ifs at h with hle
    · simp only [Bool.or_eq_true, decide_eq_true_eq] at h
      rcases h with h | h3
      · omega
      · have : k = lo := by omega
        subst this; exact h3
    · simp only [Bool.and_eq_true] at h
      by_cases hd : k < lo + len / 2
      · exact ih lo (len / 2) h.1 h1 hd
      · exact ih (lo + len / 2) (len - len / 2) h.2 (by omega) (by omega)

set_option maxHeartbeats 0 in
set_option maxRecDepth 100000 in
/-- No odd number from 3 to 46341 divides `INT_MAX`. -/
theorem noOddDivisorIn_check : noOddDivisorIn 16 1 23170 = true := by decide

/-- No number from 2 to 46340 divides `INT_MAX`. -/
theorem int_max_mod_ne_zero (a : Nat) (h1 : 2 ≤ a) (h2 : a ≤ 46340) :
    2147483647 % a ≠ 0 := by
  rcases Nat.even_or_odd a with ⟨c, hc⟩ | ⟨c, hc⟩
  · intro h
    have h2a : 2 ∣ a := ⟨c, by omega⟩
    have : 2 ∣ 2147483647 := Nat.dvd_trans h2a (Nat.dvd_of_mod_eq_zero h)
    omega
  · subst hc
    exact noOddDivisorIn_sound 16 1 23170 noOddDivisorIn_check c (by omega) (by omega)

/-- The value `INT_MAX` is not a product of two numbers below it. -/
theorem mul_ne_int_max (a b : Nat) (ha : a < 2147483647) (hb : b < 2147483647) :
    a * b ≠ 2147483647 := by
  intro h
  have key : ∀ x y : Nat, x ≤ y → y < 2147483647 → x * y = 2147483647 → False := by
    intro x y hxy hy hm
    have hx0 : x ≠ 0 := by rintro rfl; simp at hm
    have hx1 : x ≠ 1 := by rintro rfl; omega
    have hsq : x * x ≤ 2147483647 := by
      calc x * x ≤ x * y := Nat.mul_le_mul_left x hxy
        _ = 2147483647 := hm
    have hx : x ≤ 46340 := by
      by_contra hc
      have : 46341 * 46341 ≤ x * x := Nat.mul_le_mul (by omega) (by omega)
      omega
    exact int_max_mod_ne_zero x (by omega) hx (Nat.mod_eq_zero_of_dvd ⟨y, hm.symm⟩)
  rcases Nat.le_total a b with hab | hab
  · exact key a b hab hb h
  · exact key b a hab ha (by rw [Nat.mul_comm]; exact h)

/-- C2. For every enumerated list of display modes (width, height, depth) with
widths and heights below `INT_MAX`, every target and depth, with mode
switching enabled and dimensions small enough that
`(width - targetW) * (height - targetH)` does not overflow a 32-bit `int`: if
at least one mode has the requested depth and covers the target, `changeMode`
selects the first index, in enumeration order, among the covering modes of
least product, and issues `ChangeDisplaySettings` with that mode. -/
theorem changeMode_selects_first_smallest_cover (p : Platform) (s : State)
    (hvm : s.vm ≠ 0)
    (how : s.o_dwidth < 4294967296) (hoh : s.o_dheight < 4294967296)
    (hwf : ∀ m ∈ p.displayModes, m.wf)
    (hreal : ∀ m ∈ p.displayModes,
      m.dmPelsWidth < 2147483647 ∧ m.dmPelsHeight < 2147483647)
    (hfit : ∀ m ∈ p.displayModes, modeCovers s m → coverArea s m ≤ INT_MAX)
    (hex : ∃ m ∈ p.displayModes, modeCovers s m) :
    ∃ (k : Nat) (m : DEVMODE), p.displayModes[k]? = some m ∧ modeCovers s m
      ∧ (∀ (j : Nat) (mj : DEVMODE), p.displayModes[j]? = some mj → modeCovers s mj →
          coverArea s m ≤ coverArea s mj)
      ∧ (∀ (j : Nat) (mj : DEVMODE), j < k → p.displayModes[j]? = some mj → modeCovers s mj →
          coverArea s m < coverArea s mj)
      ∧ (changeModeSearch p s).bestMode = k
      ∧ changeMode p s = [Directive.ChangeDisplaySettings (some m)] := by
  refine changeMode_selects_first_least_cover p s hvm how hoh hwf ?_ hex
  intro m hm hc
  refine lt_of_le_of_ne (hfit m hm hc) ?_
  obtain ⟨_, c2, c3⟩ := hc
  obtain ⟨r1, r2⟩ := hreal m hm
  have hne := mul_ne_int_max (m.dmPelsWidth - s.o_dwidth) (m.dmPelsHeight - s.o_dheight)
    (by omega) (by omega)
  intro heq
  apply hne
  have e : coverArea s m
      = (((m.dmPelsWidth - s.o_dwidth) * (m.dmPelsHeight - s.o_dheight) : Nat) : Int) := by
    unfold coverArea
    push_cast [Nat.cast_sub c2, Nat.cast_sub c3]
    ring
  rw [e] at heq
  unfold INT_MAX at heq
  exact_mod_cast heq

/-- Witness of C2: modes 1920x1080, 1600x900, 2560x1440 at 32 bits with a request
of 1700x1000 at 32 bits; the mode at index 0, 1920x1080, is applied. -/
theorem changeMode_selects_first_smallest_cover_witness :
    ((modeRequest 1700 1000).vm ≠ 0
      ∧ (∀ m ∈ examplePlatform.displayModes, m.wf)
      ∧ (∀ m ∈ examplePlatform.displayModes,
          m.dmPelsWidth < 2147483647 ∧ m.dmPelsHeight < 2147483647)
      ∧ (∀ m ∈ examplePlatform.displayModes, modeCovers (modeRequest 1700 1000) m →
          coverArea (modeRequest 1700 1000) m ≤ INT_MAX)
      ∧ modeCovers (modeRequest 1700 1000) ⟨32, 1920, 1080⟩)
    ∧ (∃ (k : Nat) (m : DEVMODE), examplePlatform.displayModes[k]? = some m
      ∧ modeCovers (modeRequest 1700 1000) m
      ∧ (∀ (j : Nat) (mj : DEVMODE), examplePlatform.displayModes[j]? = some mj →
          modeCovers (modeRequest 1700 1000) mj →
          coverArea (modeRequest 1700 1000) m ≤ coverArea (modeRequest 1700 1000) mj)
      ∧ (∀ (j : Nat) (mj : DEVMODE), j < k → examplePlatform.displayModes[j]? = some mj →
          modeCovers (modeRequest 1700 1000) mj →
          coverArea (modeRequest 1700 1000) m < coverArea (modeRequest 1700 1000) mj)
      ∧ (changeModeSearch examplePlatform (modeRequest 1700 1000)).bestMode = k
      ∧ changeMode examplePlatform (modeRequest 1700 1000)
          = [Directive.ChangeDisplaySettings (some m)])
    ∧ changeMode examplePlatform (modeRequest 1700 1000)
        = [Directive.ChangeDisplaySettings (some ⟨32, 1920, 1080⟩)] :=
  ⟨⟨by decide, by decide, by decide, by decide, by decide⟩,
    changeMode_selects_first_smallest_cover examplePlatform (modeRequest 1700 1000)
      (by decide) (by decide) (by decide) (by decide) (by decide) (by decide)
      ⟨⟨32, 1920, 1080⟩, by decide, by decide⟩,
    by decide⟩

/-- The `DEVMODE` buffer after the loop of `changeMode` holds the last enumerated
mode: every successful `EnumDisplaySettings` call overwrites it. -/
theorem changeModeLoop_dm (s : State) (ms : List DEVMODE) (i : Int) (acc : ModeSearch) :
    (changeModeLoop s ms i acc).dm = ms.getLast?.getD acc.dm := by
  induction ms generalizing i acc with
  | nil => simp [changeModeLoop]
  | cons m rest ih =>
    rw [changeModeLoop, ih]
    have hdm : (changeModeStep s i m acc).dm = m := by
      unfold changeModeStep
      split_ifs <;> rfl
    rw [hdm]
    cases rest with
    | nil => simp
    | cons m2 rest2 =>
      rw [List.getLast?_cons_cons, List.getLast?_eq_getLast _ (List.cons_ne_nil m2 rest2)]
      rfl

/-- With mode switching enabled, a non-empty enumeration and no enumerated mode
of the requested depth covering the target, `changeMode` selects no index and
calls `ChangeDisplaySettings` with the last enumerated mode, not with the
desktop mode the buffer was pre-loaded with. -/
theorem changeMode_no_cover_applies_last (p : Platform) (s : State)
    (hvm : s.vm ≠ 0)
    (how : s.o_dwidth < 4294967296) (hoh : s.o_dheight < 4294967296)
    (hwf : ∀ m ∈ p.displayModes, m.wf)
    (hnone : ∀ m ∈ p.displayModes, ¬ modeCovers s m)
    (hne : p.displayModes ≠ []) :
    (changeModeSearch p s).bestMode = -1
    ∧ changeMode p s
        = [Directive.ChangeDisplaySettings (some (p.displayModes.getLast hne))] := by
  have hbest : (changeModeSearch p s).bestMode = -1 := by
    unfold changeModeSearch
    rcases changeModeLoop_spec s p.displayModes 0
        { bestMode := -1, bestScore := INT_MAX,
          dm := { dmBitsPerPel := toU32 s.depthonscreen,
                  dmPelsWidth := toU32 s.vo_screenwidth,
                  dmPelsHeight := toU32 s.vo_screenheight } } with
      ⟨h1, _, _⟩ | ⟨k, m, ⟨f1, f2, _, _⟩, _, _, _⟩
    · exact h1
    · have hmem : m ∈ p.displayModes := List.getElem?_mem f1
      exact absurd ((modeRejected_eq_false_iff s m (hwf m hmem) how hoh).mp f2) (hnone m hmem)
  have hdm : (changeModeSearch p s).dm = p.displayModes.getLast hne := by
    unfold changeModeSearch
    rw [changeModeLoop_dm, List.getLast?_eq_getLast _ hne]
    rfl
  refine ⟨hbest, ?_⟩
  unfold changeMode
  rw [if_pos hvm]
  simp only [hbest, hdm]
  simp

/-- C3 (the code at the failing input). On a 1920 x 1080 desktop at 32 bits that
enumerates 1920 x 1080 at 32 bits and 640 x 480 at 16 bits, with mode
switching enabled and a request of 4000 x 3000: no mode covers the request
and no index is selected, the buffer was pre-loaded with the desktop mode, yet
`changeMode` calls `ChangeDisplaySettings` with 640 x 480 at 16 bits, the last
enumerated mode.  The claim says no mode change is made and the desktop mode
is left untouched. -/
theorem changeMode_no_cover_applies_last_enumerated :
    (modeRequest 4000 3000).vm ≠ 0
    ∧ (∀ m ∈ fallbackPlatform.displayModes, ¬ modeCovers (modeRequest 4000 3000) m)
    ∧ (toU32 (modeRequest 4000 3000).depthonscreen = 32
        ∧ toU32 (modeRequest 4000 3000).vo_screenwidth = 1920
        ∧ toU32 (modeRequest 4000 3000).vo_screenheight = 1080)
    ∧ (changeModeSearch fallbackPlatform (modeRequest 4000 3000)).bestMode = -1
    ∧ changeMode fallbackPlatform (modeRequest 4000 3000)
        = [Directive.ChangeDisplaySettings (some ⟨16, 640, 480⟩)] := by
  refine ⟨by decide, by decide, by decide, by decide, by decide⟩

/-! ## Aspect-locked resize -/

/-! ### Binary32 rounding -/

/-- Rounding to nearest does not go below an integer that is below the value. -/
theorem roundEven_ge_of_le (q : ℚ) (k : Int) (h : (k : ℚ) ≤ q) : k ≤ roundEven q := by
  have hf : k ≤ ⌊q⌋ := Int.le_floor.mpr h
  unfold roundEven
  split_ifs <;> omega

/-- Rounding to nearest does not go above an integer that is above the value. -/
theorem roundEven_le_of_le (q : ℚ) (k : Int) (h : q ≤ (k : ℚ)) : roundEven q ≤ k := by
  unfold roundEven
  rcases eq_or_lt_of_le h with h1 | h1
  · subst h1
    simp
  · have hf : ⌊q⌋ < k := Int.floor_lt.mpr h1
    split_ifs <;> omega

/-- The spacing is positive. -/
theorem ulp32_pos (x : ℚ) : 0 < ulp32 x := by
  unfold ulp32
  positivity

/-- Below `2 ^ 24` the exponent of the binade is at most 23. -/
theorem log_le_of_abs_lt (x : ℚ) (h : |x| < 16777216) : Int.log 2 |x| ≤ 23 := by
  rcases eq_or_lt_of_le (abs_nonneg x) with h0 | h0
  · rw [← h0, Int.log_zero_right]; decide
  · have := (Int.lt_zpow_iff_log_lt (b := 2) (by decide) (x := 24) h0).mp (by
      norm_num; exact h)
    omega

/-- An integer is on the grid of every binade below `2 ^ 24`. -/
theorem int_div_ulp32 (x : ℚ) (h : |x| < 16777216) (n : Int) :
    ∃ k : Int, (n : ℚ) / ulp32 x = (k : ℚ) := by
  have hl := log_le_of_abs_lt x h
  obtain ⟨j, hj⟩ : ∃ j : ℕ, max (Int.log 2 |x|) (-126) - 23 = -(j : ℤ) := by
    refine ⟨(23 - max (Int.log 2 |x|) (-126)).toNat, ?_⟩
    have : max (Int.log 2 |x|) (-126) ≤ 23 := max_le hl (by decide)
    omega
  refine ⟨n * 2 ^ j, ?_⟩
  unfold ulp32
  rw [hj, zpow_neg, zpow_natCast]
  push_cast
  field_simp

/-- Below `2 ^ 24` binary32 rounding does not go below an integer that is below
the value. -/
theorem round32_ge_of_int_le (x : ℚ) (h : |x| < 16777216) (n : Int) (hn : (n : ℚ) ≤ x) :
    (n : ℚ) ≤ round32 x := by
  obtain ⟨k, hk⟩ := int_div_ulp32 x h n
  have hu := ulp32_pos x
  have h1 : (k : ℚ) ≤ x / ulp32 x := by
    rw [← hk]; exact div_le_div_of_nonneg_right hn hu.le
  have h2 : k ≤ roundEven (x / ulp32 x) := roundEven_ge_of_le _ _ h1
  have h3 : (n : ℚ) = (k : ℚ) * ulp32 x := by
    rw [← hk]; field_simp
  unfold round32
  rw [h3]
  exact mul_le_mul_of_nonneg_right (by exact_mod_cast h2) hu.le

/-- Below `2 ^ 24` binary32 rounding does not go above an integer that is above
the value. -/
theorem round32_le_of_le_int (x : ℚ) (h : |x| < 16777216) (n : Int) (hn : x ≤ (n : ℚ)) :
    round32 x ≤ (n : ℚ) := by
  obtain ⟨k, hk⟩ := int_div_ulp32 x h n
  have hu := ulp32_pos x
  have h1 : x / ulp32 x ≤ (k : ℚ) := by
    rw [← hk]; exact div_le_div_of_nonneg_right hn hu.le
  have h2 : roundEven (x / ulp32 x) ≤ k := roundEven_le_of_le _ _ h1
  have h3 : (n : ℚ) = (k : ℚ) * ulp32 x := by
    rw [← hk]; field_simp
  unfold round32
  rw [h3]
  exact mul_le_mul_of_nonneg_right (by exact_mod_cast h2) hu.le


/-- Wrap-around leaves an `int` value as it is. -/
theorem wrapI32_of_range (i : Int) (h1 : -2147483648 ≤ i) (h2 : i < 2147483648) :
    wrapI32 i = i := by
  unfold wrapI32 toI32 toU32
  have hnn : 0 ≤ i % 4294967296 := Int.emod_nonneg _ (by decide)
  have hlt : i % 4294967296 < 4294967296 := Int.emod_lt_of_pos _ (by decide)
  have hcast : (((i % 4294967296).toNat : Nat) : Int) = i % 4294967296 := Int.toNat_of_nonneg hnn
  have hmod : (i % 4294967296).toNat % 4294967296 = (i % 4294967296).toNat := by
    apply Nat.mod_eq_of_lt
    omega
  rw [hmod]
  split_ifs with hc
  · rw [hcast]; omega
  · rw [hcast]; omega

/-- An integer below `2 ^ 24` in magnitude is a binary32 value. -/
theorem round32_intCast (n : Int) (h : |(n : ℚ)| < 16777216) : round32 (n : ℚ) = (n : ℚ) :=
  le_antisymm (round32_le_of_le_int _ h n le_rfl) (round32_ge_of_int_le _ h n le_rfl)

/-- Truncation does not go below an integer that is below the value. -/
theorem floatToInt_ge_of_int_le (q : ℚ) (k : Int) (h : (k : ℚ) ≤ q) : k ≤ floatToInt q := by
  unfold floatToInt
  split
  · exact Int.le_floor.mpr h
  · exact Int.le_ceil_iff.mpr (by linarith)

/-- Truncation does not go above an integer that is above the value. -/
theorem floatToInt_le_of_le_int (q : ℚ) (k : Int) (h : q ≤ (k : ℚ)) : floatToInt q ≤ k := by
  unfold floatToInt
  split
  · exact Int.floor_le_iff.mpr (by linarith)
  · exact Int.ceil_le.mpr h


/-- Rounding a value below `2 ^ 24` in magnitude stays between its floor and its
ceiling and is finite. -/
theorem roundF32_of_abs_lt (x : ℚ) (h : |x| < 16777216) :
    roundF32 x = some (round32 x) ∧ (⌊x⌋ : ℚ) ≤ round32 x ∧ round32 x ≤ (⌈x⌉ : ℚ)
      ∧ |round32 x| ≤ 16777216 := by
  have h1 := round32_ge_of_int_le x h ⌊x⌋ (Int.floor_le x)
  have h2 := round32_le_of_le_int x h ⌈x⌉ (Int.le_ceil x)
  have h3 := round32_ge_of_int_le x h (-16777216) (by
    push_cast; linarith [(abs_lt.mp h).1])
  have h4 := round32_le_of_le_int x h 16777216 (by
    push_cast; linarith [(abs_lt.mp h).2])
  have h5 : |round32 x| ≤ 16777216 := by
    rw [abs_le]; push_cast at h3 h4; exact ⟨h3, h4⟩
  refine ⟨?_, h1, h2, h5⟩
  unfold roundF32
  rw [if_pos (lt_of_le_of_lt h5 (by norm_num))]

/-- The two rounded operations and the conversion to `int` behind `d_w` and
`d_h`, for operands below `2 ^ 23` in magnitude: the result lies between the
floor and the ceiling of the exact difference. -/
theorem sub_pipeline_between (x : ℚ) (c : Int) (hx : |x| < 8388608)
    (hc : |(c : ℚ)| < 8388608) :
    ⌊x - (c : ℚ)⌋ ≤ optFloatToInt32 ((roundF32 x).bind fun v => roundF32 (v - (c : ℚ)))
    ∧ optFloatToInt32 ((roundF32 x).bind fun v => roundF32 (v - (c : ℚ))) ≤ ⌈x - (c : ℚ)⌉ := by
  obtain ⟨e1, lo1, hi1, _⟩ := roundF32_of_abs_lt x (lt_trans hx (by norm_num))
  have hlo : (-8388608 : ℚ) ≤ round32 x := by
    have := round32_ge_of_int_le x (lt_trans hx (by norm_num)) (-8388608) (by
      push_cast; linarith [(abs_lt.mp hx).1])
    push_cast at this; exact this
  have hhi : round32 x ≤ (8388608 : ℚ) := by
    have := round32_le_of_le_int x (lt_trans hx (by norm_num)) 8388608 (by
      push_cast; linarith [(abs_lt.mp hx).2])
    push_cast at this; exact this
  have hy : |round32 x - (c : ℚ)| < 16777216 := by
    rw [abs_lt] at hc ⊢
    constructor <;> linarith
  obtain ⟨e2, _, _, b2⟩ := roundF32_of_abs_lt (round32 x - (c : ℚ)) hy
  have lo2 := round32_ge_of_int_le (round32 x - (c : ℚ)) hy (⌊x⌋ - c) (by
    push_cast; linarith)
  have hi2 := round32_le_of_le_int (round32 x - (c : ℚ)) hy (⌈x⌉ - c) (by
    push_cast; linarith)
  rw [e1, Option.some_bind, e2]
  have t1 := floatToInt_ge_of_int_le _ _ lo2
  have t2 := floatToInt_le_of_le_int _ _ hi2
  have r1 := floatToInt_ge_of_int_le (round32 (round32 x - (c : ℚ))) (-16777216) (by
    push_cast; linarith [(abs_le.mp b2).1])
  have r2 := floatToInt_le_of_le_int (round32 (round32 x - (c : ℚ))) 16777216 (by
    push_cast; linarith [(abs_le.mp b2).2])
  have hconv : optFloatToInt32 (some (round32 (round32 x - (c : ℚ))))
      = floatToInt (round32 (round32 x - (c : ℚ))) := by
    show floatToInt32 _ = _
    unfold floatToInt32
    rw [if_pos ⟨by omega, by omega⟩]
  rw [hconv, Int.floor_sub_int, Int.ceil_sub_int]
  exact ⟨t1, t2⟩

/-- The delta `d_w` lies between the floor and the ceiling of `c_h * a - c_w` when
the sizes and the target are below `2 ^ 23` in magnitude. -/
theorem sizing_d_w_between (c_w c_h : Int) (a : ℚ) (hcw : |(c_w : ℚ)| < 8388608)
    (hch : |(c_h : ℚ)| < 8388608) (hx : |(c_h : ℚ) * a| < 8388608) :
    ⌊(c_h : ℚ) * a - (c_w : ℚ)⌋ ≤ sizing_d_w c_w c_h a
    ∧ sizing_d_w c_w c_h a ≤ ⌈(c_h : ℚ) * a - (c_w : ℚ)⌉ := by
  unfold sizing_d_w
  rw [round32_intCast c_h (lt_trans hch (by norm_num)),
    round32_intCast c_w (lt_trans hcw (by norm_num))]
  exact sub_pipeline_between _ _ hx hcw

/-- The delta `d_h` lies between the floor and the ceiling of `c_w / a - c_h` when
the sizes and the target are below `2 ^ 23` in magnitude. -/
theorem sizing_d_h_between (c_w c_h : Int) (a : ℚ) (ha : a ≠ 0)
    (hcw : |(c_w : ℚ)| < 8388608) (hch : |(c_h : ℚ)| < 8388608)
    (hx : |(c_w : ℚ) / a| < 8388608) :
    ⌊(c_w : ℚ) / a - (c_h : ℚ)⌋ ≤ sizing_d_h c_w c_h a
    ∧ sizing_d_h c_w c_h a ≤ ⌈(c_w : ℚ) / a - (c_h : ℚ)⌉ := by
  unfold sizing_d_h
  rw [if_neg ha, round32_intCast c_h (lt_trans hch (by norm_num)),
    round32_intCast c_w (lt_trans hcw (by norm_num))]
  exact sub_pipeline_between _ _ hx hch


/-- Rounding with the binade given: for `2 ^ e ≤ |x| < 2 ^ (e + 1)` in the normal
range, `x` is rounded on the grid of step `2 ^ (e - 23)`. -/
theorem round32_eval (x : ℚ) (e m : Int) (he : -126 ≤ e)
    (h1 : (2 : ℚ) ^ e ≤ |x|) (h2 : |x| < (2 : ℚ) ^ (e + 1))
    (hr : roundEven (x / (2 : ℚ) ^ (e - 23)) = m) :
    round32 x = (m : ℚ) * (2 : ℚ) ^ (e - 23) := by
  have hpos : 0 < |x| := lt_of_lt_of_le (by positivity) h1
  have hlog : Int.log 2 |x| = e := by
    have a1 := (Int.zpow_le_iff_le_log (b := 2) (by decide) (x := e) hpos).mp (by
      exact_mod_cast h1)
    have a2 := (Int.lt_zpow_iff_log_lt (b := 2) (by decide) (x := e + 1) hpos).mp (by
      exact_mod_cast h2)
    omega
  unfold round32 ulp32
  rw [hlog, max_eq_left he, hr]

/-- A value strictly within one half of an integer rounds to it. -/
theorem roundEven_eq_of_near (q : ℚ) (m : Int) (h1 : (m : ℚ) - 1 / 2 < q)
    (h2 : q < (m : ℚ) + 1 / 2) : roundEven q = m := by
  unfold roundEven
  rcases le_or_lt (m : ℚ) q with h | h
  · have hf : ⌊q⌋ = m := Int.floor_eq_iff.mpr ⟨h, by linarith⟩
    rw [hf, if_pos (by linarith)]
  · have hf : ⌊q⌋ = m - 1 := Int.floor_eq_iff.mpr ⟨by push_cast; linarith, by
      push_cast; linarith⟩
    rw [hf, if_neg (by push_cast; linarith), if_pos (by push_cast; linarith)]
    ring

/-- A tie above an even integer rounds down to it. -/
theorem roundEven_tie_even (q : ℚ) (m : Int) (hq : q = (m : ℚ) + 1 / 2) (hm : m % 2 = 0) :
    roundEven q = m := by
  unfold roundEven
  have hf : ⌊q⌋ = m := Int.floor_eq_iff.mpr ⟨by linarith, by linarith⟩
  rw [hf, if_neg (by linarith), if_neg (by linarith), if_pos hm]

/-! ### The `WM_SIZING` case -/

/-- Truncation of a value that is an integer. -/
theorem floatToInt_of_eq_intCast (q : ℚ) (n : Int) (h : q = (n : ℚ)) : floatToInt q = n := by
  subst h
  unfold floatToInt
  split <;> simp

/-- The handle table yields the index 1, 2 or 3, or -1. -/
theorem get_resize_border_cases (v : Int) :
    get_resize_border v = 1 ∨ get_resize_border v = 2 ∨ get_resize_border v = 3
      ∨ get_resize_border v = -1 := by
  unfold get_resize_border
  split_ifs <;> simp

/-- The handle table yields -1 exactly outside the eight handles 1..8. -/
theorem get_resize_border_eq_neg_one_iff (v : Int) :
    get_resize_border v = -1 ↔ (v < 1 ∨ 8 < v) := by
  unfold get_resize_border WMSZ_LEFT WMSZ_TOP WMSZ_RIGHT WMSZ_BOTTOM WMSZ_TOPLEFT
    WMSZ_TOPRIGHT WMSZ_BOTTOMLEFT WMSZ_BOTTOMRIGHT
  split_ifs <;> constructor <;> intro h
  all_goals first | contradiction | omega

/-- The rectangle left by the `WM_SIZING` handler when the aspect lock applies,
by the index the handle table selects. -/
theorem WndProc_WM_SIZING_active (p : Platform) (s : State) (a : ℚ) (v : Int) (rc : RECT)
    (hk : s.vo_keepaspect ≠ 0) (hfs : s.vo_fs = 0) (hw : s.WinID < 0) :
    (WndProc_WM_SIZING p s a v rc).1 =
      (if get_resize_border v = 1 then
        { rc with top := wrapI32 (rc.top - clientDeltaH p s a rc) }
      else if get_resize_border v = 2 then
        { rc with right := wrapI32 (rc.right - wrapI32 (-clientDeltaW p s a rc)) }
      else if get_resize_border v = 3 then
        { rc with bottom := wrapI32 (rc.bottom - wrapI32 (-clientDeltaH p s a rc)) }
      else rc) := by
  unfold WndProc_WM_SIZING
  rw [if_pos ⟨hk, by simp [hfs], hw⟩]
  rcases get_resize_border_cases v with h | h | h | h <;>
    simp [h, cornersSub, clientDeltaW, clientDeltaH, clientWidth, clientHeight]

/-- The rectangle is passed through when the aspect lock does not apply. -/
theorem WndProc_WM_SIZING_inactive (p : Platform) (s : State) (a : ℚ) (v : Int) (rc : RECT)
    (h : ¬ (s.vo_keepaspect ≠ 0 ∧ ¬ (s.vo_fs ≠ 0) ∧ s.WinID < 0)) :
    WndProc_WM_SIZING p s a v rc = (rc, false) := by
  unfold WndProc_WM_SIZING
  rw [if_neg h]

/-- An integer between the floor and the ceiling of a value is less than one
away from it. -/
theorem abs_sub_lt_one_of_between (t : ℚ) (d : Int) (h1 : ⌊t⌋ ≤ d) (h2 : d ≤ ⌈t⌉) :
    |(d : ℚ) - t| < 1 := by
  have a1 : ((⌊t⌋ : Int) : ℚ) ≤ (d : ℚ) := by exact_mod_cast h1
  have a2 : (d : ℚ) ≤ ((⌈t⌉ : Int) : ℚ) := by exact_mod_cast h2
  have b1 := Int.lt_floor_add_one t
  have b2 := Int.ceil_lt_add_one t
  rw [abs_lt]
  constructor <;> linarith

/-- A bound on an integer as a bound on its cast. -/
theorem abs_cast_lt_of_bounds (n : Int) (h : -8388608 < n ∧ n < 8388608) :
    |(n : ℚ)| < 8388608 := by
  rw [abs_lt]
  constructor
  · exact_mod_cast h.1
  · exact_mod_cast h.2

/-- For client sizes and a target width below `2 ^ 23` the computed `d_w` lies
between the floor and the ceiling of `ch * a - cw`. -/
theorem clientDeltaW_between (p : Platform) (s : State) (a : ℚ) (rc : RECT)
    (hcw : -8388608 < clientWidth p s rc ∧ clientWidth p s rc < 8388608)
    (hch : -8388608 < clientHeight p s rc ∧ clientHeight p s rc < 8388608)
    (htw : |(clientHeight p s rc : ℚ) * a| < 8388608) :
    (⌊(clientHeight p s rc : ℚ) * a - (clientWidth p s rc : ℚ)⌋ ≤ clientDeltaW p s a rc
      ∧ clientDeltaW p s a rc ≤ ⌈(clientHeight p s rc : ℚ) * a - (clientWidth p s rc : ℚ)⌉)
    ∧ (-16777216 ≤ clientDeltaW p s a rc ∧ clientDeltaW p s a rc ≤ 16777216) := by
  have qw := abs_cast_lt_of_bounds _ hcw
  have qh := abs_cast_lt_of_bounds _ hch
  have hb := sizing_d_w_between (clientWidth p s rc) (clientHeight p s rc) a qw qh htw
  have e : clientDeltaW p s a rc = sizing_d_w (clientWidth p s rc) (clientHeight p s rc) a := by
    unfold clientDeltaW
    rw [wrapI32_of_range _ (by omega) (by omega), wrapI32_of_range _ (by omega) (by omega)]
  rw [e]
  refine ⟨hb, ?_, ?_⟩
  · refine le_trans (Int.le_floor.mpr ?_) hb.1
    push_cast
    linarith [(abs_lt.mp htw).1, (abs_lt.mp qw).2]
  · refine le_trans hb.2 (Int.ceil_le.mpr ?_)
    push_cast
    linarith [(abs_lt.mp htw).2, (abs_lt.mp qw).1]

/-- For client sizes and a target height below `2 ^ 23` the computed `d_h` lies
between the floor and the ceiling of `cw / a - ch`. -/
theorem clientDeltaH_between (p : Platform) (s : State) (a : ℚ) (rc : RECT) (ha : a ≠ 0)
    (hcw : -8388608 < clientWidth p s rc ∧ clientWidth p s rc < 8388608)
    (hch : -8388608 < clientHeight p s rc ∧ clientHeight p s rc < 8388608)
    (hth : |(clientWidth p s rc : ℚ) / a| < 8388608) :
    (⌊(clientWidth p s rc : ℚ) / a - (clientHeight p s rc : ℚ)⌋ ≤ clientDeltaH p s a rc
      ∧ clientDeltaH p s a rc ≤ ⌈(clientWidth p s rc : ℚ) / a - (clientHeight p s rc : ℚ)⌉)
    ∧ (-16777216 ≤ clientDeltaH p s a rc ∧ clientDeltaH p s a rc ≤ 16777216) := by
  have qw := abs_cast_lt_of_bounds _ hcw
  have qh := abs_cast_lt_of_bounds _ hch
  have hb := sizing_d_h_between (clientWidth p s rc) (clientHeight p s rc) a ha qw qh hth
  have e : clientDeltaH p s a rc = sizing_d_h (clientWidth p s rc) (clientHeight p s rc) a := by
    unfold clientDeltaH
    rw [wrapI32_of_range _ (by omega) (by omega), wrapI32_of_range _ (by omega) (by omega)]
  rw [e]
  refine ⟨hb, ?_, ?_⟩
  · refine le_trans (Int.le_floor.mpr ?_) hb.1
    push_cast
    linarith [(abs_lt.mp hth).1, (abs_lt.mp qh).2]
  · refine le_trans hb.2 (Int.ceil_le.mpr ?_)
    push_cast
    linarith [(abs_lt.mp hth).2, (abs_lt.mp qh).1]

/-- The rectangle left by the `WM_SIZING` handler when the aspect lock applies,
the coordinates are below `2 ^ 30` and the deltas at most `2 ^ 24` in
magnitude: no `int` operation wraps around. -/
theorem WndProc_WM_SIZING_active_small (p : Platform) (s : State) (a : ℚ) (v : Int)
    (rc : RECT) (hk : s.vo_keepaspect ≠ 0) (hfs : s.vo_fs = 0) (hw : s.WinID < 0)
    (hrc : rc.small)
    (hdw : -16777216 ≤ clientDeltaW p s a rc ∧ clientDeltaW p s a rc ≤ 16777216)
    (hdh : -16777216 ≤ clientDeltaH p s a rc ∧ clientDeltaH p s a rc ≤ 16777216) :
    (WndProc_WM_SIZING p s a v rc).1 =
      (if get_resize_border v = 1 then
        { rc with top := rc.top - clientDeltaH p s a rc }
      else if get_resize_border v = 2 then
        { rc with right := rc.right + clientDeltaW p s a rc }
      else if get_resize_border v = 3 then
        { rc with bottom := rc.bottom + clientDeltaH p s a rc }
      else rc) := by
  obtain ⟨⟨l1, l2⟩, ⟨t1, t2⟩, ⟨r1, r2⟩, ⟨b1, b2⟩⟩ := hrc
  rw [WndProc_WM_SIZING_active p s a v rc hk hfs hw]
  rw [wrapI32_of_range (-clientDeltaW p s a rc) (by omega) (by omega),
    wrapI32_of_range (-clientDeltaH p s a rc) (by omega) (by omega),
    wrapI32_of_range (rc.top - clientDeltaH p s a rc) (by omega) (by omega),
    wrapI32_of_range (rc.right - -clientDeltaW p s a rc) (by omega) (by omega),
    wrapI32_of_range (rc.bottom - -clientDeltaH p s a rc) (by omega) (by omega)]
  simp only [sub_neg_eq_add]

/-- C4 (amended). With the aspect lock active, not fullscreen and not embedded,
for every requested rectangle with coordinates below `2 ^ 30` in magnitude,
all border insets, every positive aspect ratio `a` and each of the eight
resize handles, when the requested client sizes `cw`, `ch` and the target
sizes `ch * a`, `cw / a` are below `2 ^ 23` in magnitude, the client area
(w', h') of the corrected rectangle has the aspect ratio restored up to
truncation: either h' is `ch` and `|w' - ch * a| < 1`, or w' is `cw` and
`|h' - cw / a| < 1`. -/
theorem wm_sizing_restores_aspect (p : Platform) (s : State) (a : ℚ) (v : Int) (rc : RECT)
    (hk : s.vo_keepaspect ≠ 0) (hfs : s.vo_fs = 0) (hw : s.WinID < 0)
    (ha : 0 < a) (hv : 1 ≤ v ∧ v ≤ 8) (hrc : rc.small)
    (hcw : -8388608 < clientWidth p s rc ∧ clientWidth p s rc < 8388608)
    (hch : -8388608 < clientHeight p s rc ∧ clientHeight p s rc < 8388608)
    (htw : |(clientHeight p s rc : ℚ) * a| < 8388608)
    (hth : |(clientWidth p s rc : ℚ) / a| < 8388608) :
    (clientHeight p s (WndProc_WM_SIZING p s a v rc).1 = clientHeight p s rc
      ∧ |(clientWidth p s (WndProc_WM_SIZING p s a v rc).1 : ℚ)
          - (clientHeight p s rc : ℚ) * a| < 1)
    ∨ (clientWidth p s (WndProc_WM_SIZING p s a v rc).1 = clientWidth p s rc
      ∧ |(clientHeight p s (WndProc_WM_SIZING p s a v rc).1 : ℚ)
          - (clientWidth p s rc : ℚ) / a| < 1) := by
  obtain ⟨bw, rw1⟩ := clientDeltaW_between p s a rc hcw hch htw
  obtain ⟨bh, rh1⟩ := clientDeltaH_between p s a rc (ne_of_gt ha) hcw hch hth
  rw [WndProc_WM_SIZING_active_small p s a v rc hk hfs hw hrc rw1 rh1]
  have kw := abs_sub_lt_one_of_between _ _ bw.1 bw.2
  have kh := abs_sub_lt_one_of_between _ _ bh.1 bh.2
  generalize clientDeltaW p s a rc = dw at kw
  generalize clientDeltaH p s a rc = dh at kh
  have hne : get_resize_border v ≠ -1 := by
    intro h
    have := (get_resize_border_eq_neg_one_iff v).mp h
    omega
  rcases get_resize_border_cases v with h | h | h | h
  · right
    rw [h]
    have e1 : clientWidth p s { rc with top := rc.top - dh } = clientWidth p s rc := by
      simp [clientWidth, subtract_window_borders]
    have e2 : clientHeight p s { rc with top := rc.top - dh } = clientHeight p s rc + dh := by
      simp only [clientHeight, subtract_window_borders]; ring
    refine ⟨by simpa using e1, ?_⟩
    simp only [if_true]
    rw [e2]
    push_cast
    have : (clientHeight p s rc : ℚ) + (dh : ℚ) - (clientWidth p s rc : ℚ) / a
        = (dh : ℚ) - ((clientWidth p s rc : ℚ) / a - (clientHeight p s rc : ℚ)) := by ring
    rw [this]; exact kh
  · left
    rw [h]
    have e1 : clientHeight p s { rc with right := rc.right + dw } = clientHeight p s rc := by
      simp [clientHeight, subtract_window_borders]
    have e2 : clientWidth p s { rc with right := rc.right + dw } = clientWidth p s rc + dw := by
      simp only [clientWidth, subtract_window_borders]; ring
    simp only [show ¬ ((2 : Int) = 1) by decide, if_false, if_true]
    refine ⟨e1, ?_⟩
    rw [e2]
    push_cast
    have : (clientWidth p s rc : ℚ) + (dw : ℚ) - (clientHeight p s rc : ℚ) * a
        = (dw : ℚ) - ((clientHeight p s rc : ℚ) * a - (clientWidth p s rc : ℚ)) := by ring
    rw [this]; exact kw
  · right
    rw [h]
    have e1 : clientWidth p s { rc with bottom := rc.bottom + dh } = clientWidth p s rc := by
      simp [clientWidth, subtract_window_borders]
    have e2 : clientHeight p s { rc with bottom := rc.bottom + dh }
        = clientHeight p s rc + dh := by
      simp only [clientHeight, subtract_window_borders]; ring
    simp only [show ¬ ((3 : Int) = 1) by decide, show ¬ ((3 : Int) = 2) by decide,
      if_false, if_true]
    refine ⟨e1, ?_⟩
    rw [e2]
    push_cast
    have : (clientHeight p s rc : ℚ) + (dh : ℚ) - (clientWidth p s rc : ℚ) / a
        = (dh : ℚ) - ((clientWidth p s rc : ℚ) / a - (clientHeight p s rc : ℚ)) := by ring
    rw [this]; exact kh
  · exact absurd h hne

/-- An integer below `2 ^ 24` in magnitude is the finite result of rounding it. -/
theorem roundF32_intCast (n : Int) (h : |(n : ℚ)| < 16777216) :
    roundF32 (n : ℚ) = some (n : ℚ) := by
  rw [(roundF32_of_abs_lt _ h).1, round32_intCast n h]

/-- Rounding with the binade given, with the overflow test. -/
theorem roundF32_eval (x : ℚ) (e m : Int) (he : -126 ≤ e)
    (h1 : (2 : ℚ) ^ e ≤ |x|) (h2 : |x| < (2 : ℚ) ^ (e + 1))
    (hr : roundEven (x / (2 : ℚ) ^ (e - 23)) = m)
    (hfin : |(m : ℚ) * (2 : ℚ) ^ (e - 23)| < 2 ^ 128) :
    roundF32 x = some ((m : ℚ) * (2 : ℚ) ^ (e - 23)) := by
  unfold roundF32
  rw [round32_eval x e m he h1 h2 hr, if_pos hfin]

/-- Conversion to `int` of a `float` that is an integer in the range of `int`. -/
theorem floatToInt32_intCast (n : Int) (h1 : -2147483648 ≤ n) (h2 : n ≤ 2147483647) :
    floatToInt32 (n : ℚ) = n := by
  unfold floatToInt32
  rw [floatToInt_of_eq_intCast (n : ℚ) n rfl, if_pos ⟨h1, h2⟩]

/-- Witness of C4 (amended): a 3:2 lock, a drag of the right edge, a requested
client area of 800 x 600 inside an 8/31/8/8 frame. -/
theorem wm_sizing_restores_aspect_witness :
    (exampleState.vo_keepaspect ≠ 0 ∧ exampleState.vo_fs = 0 ∧ exampleState.WinID < 0
      ∧ (0 : ℚ) < 3 / 2 ∧ (1 ≤ WMSZ_RIGHT ∧ WMSZ_RIGHT ≤ 8)
      ∧ (⟨0, 0, 816, 639⟩ : RECT).small
      ∧ clientWidth examplePlatform exampleState ⟨0, 0, 816, 639⟩ = 800
      ∧ clientHeight examplePlatform exampleState ⟨0, 0, 816, 639⟩ = 600)
    ∧ ((clientHeight examplePlatform exampleState
          (WndProc_WM_SIZING examplePlatform exampleState (3 / 2) WMSZ_RIGHT
            ⟨0, 0, 816, 639⟩).1
        = clientHeight examplePlatform exampleState ⟨0, 0, 816, 639⟩
      ∧ |(clientWidth examplePlatform exampleState
          (WndProc_WM_SIZING examplePlatform exampleState (3 / 2) WMSZ_RIGHT
            ⟨0, 0, 816, 639⟩).1 : ℚ)
          - (clientHeight examplePlatform exampleState ⟨0, 0, 816, 639⟩ : ℚ) * (3 / 2)| < 1)
    ∨ (clientWidth examplePlatform exampleState
          (WndProc_WM_SIZING examplePlatform exampleState (3 / 2) WMSZ_RIGHT
            ⟨0, 0, 816, 639⟩).1
        = clientWidth examplePlatform exampleState ⟨0, 0, 816, 639⟩
      ∧ |(clientHeight examplePlatform exampleState
          (WndProc_WM_SIZING examplePlatform exampleState (3 / 2) WMSZ_RIGHT
            ⟨0, 0, 816, 639⟩).1 : ℚ)
          - (clientWidth examplePlatform exampleState ⟨0, 0, 816, 639⟩ : ℚ) / (3 / 2)| < 1)) :=
  ⟨⟨by decide, rfl, by decide, by norm_num, by decide, by decide, by decide, by decide⟩,
    wm_sizing_restores_aspect examplePlatform exampleState (3 / 2) WMSZ_RIGHT
      ⟨0, 0, 816, 639⟩ (by decide) rfl (by decide) (by norm_num) (by decide) (by decide)
      (by decide) (by decide)
      (by
        rw [show clientHeight examplePlatform exampleState ⟨0, 0, 816, 639⟩ = 600 by decide]
        norm_num [abs_lt])
      (by
        rw [show clientWidth examplePlatform exampleState ⟨0, 0, 816, 639⟩ = 800 by decide]
        norm_num [abs_lt])⟩

/-- The value `d_h` for a client area of 16777217 x 100 and aspect 1: the width is
rounded to 16777216 on conversion to `float`. -/
theorem sizing_d_h_large_width : sizing_d_h 16777217 100 1 = 16777116 := by
  have r1 : round32 ((16777217 : Int) : ℚ) = ((16777216 : Int) : ℚ) := by
    rw [round32_eval _ 24 8388608 (by decide) (by norm_num) (by norm_num)
      (roundEven_tie_even _ 8388608 (by norm_num) (by decide))]
    norm_num
  have r2 : round32 ((100 : Int) : ℚ) = ((100 : Int) : ℚ) :=
    round32_intCast 100 (by norm_num)
  have r3 : roundF32 (((16777216 : Int) : ℚ) / 1) = some ((16777216 : Int) : ℚ) := by
    rw [div_one, roundF32_eval _ 24 8388608 (by decide) (by norm_num) (by norm_num)
      (roundEven_eq_of_near _ 8388608 (by norm_num) (by norm_num)) (by norm_num)]
    norm_num
  have r4 : roundF32 (((16777216 : Int) : ℚ) - ((100 : Int) : ℚ))
      = some ((16777116 : Int) : ℚ) := by
    rw [show ((16777216 : Int) : ℚ) - ((100 : Int) : ℚ) = ((16777116 : Int) : ℚ) by norm_num]
    exact roundF32_intCast 16777116 (by norm_num)
  unfold sizing_d_h
  rw [if_neg one_ne_zero, r1, r2, r3, Option.some_bind, r4]
  exact floatToInt32_intCast 16777116 (by decide) (by decide)

/-- Counterexample to C4 as stated: under a 1:1 lock, a left-edge drag with a
requested client area of 16777217 x 100 gives the client area
16777217 x 16777216: the width is the requested one, but the height is exactly
1 away from `cw / a = 16777217`, because 16777217 is no binary32 value. -/
theorem wm_sizing_large_client_off_by_one :
    (exampleState.vo_keepaspect ≠ 0 ∧ exampleState.vo_fs = 0 ∧ exampleState.WinID < 0
      ∧ (0 : ℚ) < 1 ∧ (1 ≤ WMSZ_LEFT ∧ WMSZ_LEFT ≤ 8))
    ∧ clientWidth examplePlatform exampleState ⟨0, 0, 16777233, 139⟩ = 16777217
    ∧ clientHeight examplePlatform exampleState ⟨0, 0, 16777233, 139⟩ = 100
    ∧ WndProc_WM_SIZING examplePlatform exampleState 1 WMSZ_LEFT ⟨0, 0, 16777233, 139⟩
        = (⟨0, 0, 16777233, 16777255⟩, true)
    ∧ ¬ ((clientHeight examplePlatform exampleState
            (WndProc_WM_SIZING examplePlatform exampleState 1 WMSZ_LEFT
              ⟨0, 0, 16777233, 139⟩).1
          = clientHeight examplePlatform exampleState ⟨0, 0, 16777233, 139⟩
        ∧ |(clientWidth examplePlatform exampleState
            (WndProc_WM_SIZING examplePlatform exampleState 1 WMSZ_LEFT
              ⟨0, 0, 16777233, 139⟩).1 : ℚ)
            - (clientHeight examplePlatform exampleState ⟨0, 0, 16777233, 139⟩ : ℚ) * 1| < 1)
      ∨ (clientWidth examplePlatform exampleState
            (WndProc_WM_SIZING examplePlatform exampleState 1 WMSZ_LEFT
              ⟨0, 0, 16777233, 139⟩).1
          = clientWidth examplePlatform exampleState ⟨0, 0, 16777233, 139⟩
        ∧ |(clientHeight examplePlatform exampleState
            (WndProc_WM_SIZING examplePlatform exampleState 1 WMSZ_LEFT
              ⟨0, 0, 16777233, 139⟩).1 : ℚ)
            - (clientWidth examplePlatform exampleState ⟨0, 0, 16777233, 139⟩ : ℚ) / 1| < 1)) := by
  have hw : clientWidth examplePlatform exampleState ⟨0, 0, 16777233, 139⟩ = 16777217 := by
    decide
  have hh : clientHeight examplePlatform exampleState ⟨0, 0, 16777233, 139⟩ = 100 := by decide
  have hd : clientDeltaH examplePlatform exampleState 1 ⟨0, 0, 16777233, 139⟩ = 16777116 := by
    unfold clientDeltaH
    rw [hw, hh, show wrapI32 16777217 = 16777217 by decide,
      show wrapI32 100 = 100 by decide]
    exact sizing_d_h_large_width
  have hr : WndProc_WM_SIZING examplePlatform exampleState 1 WMSZ_LEFT
      ⟨0, 0, 16777233, 139⟩ = (⟨0, 0, 16777233, 16777255⟩, true) := by
    refine Prod.ext ?_ ?_
    · rw [WndProc_WM_SIZING_active examplePlatform exampleState 1 WMSZ_LEFT
        ⟨0, 0, 16777233, 139⟩ (by decide) rfl (by decide), hd]
      decide
    · simp [WndProc_WM_SIZING, exampleState]
  refine ⟨⟨by decide, rfl, by decide, by norm_num, by decide⟩, hw, hh, hr, ?_⟩
  rw [hr]
  simp only
  rw [show clientHeight examplePlatform exampleState ⟨0, 0, 16777233, 16777255⟩ = 16777216
      by decide,
    show clientWidth examplePlatform exampleState ⟨0, 0, 16777233, 16777255⟩ = 16777217
      by decide, hw, hh]
  norm_num

/-- The computed `d_w` when the exact difference `ch * a - cw` is an integer. -/
theorem clientDeltaW_eq_of_int (p : Platform) (s : State) (a : ℚ) (rc : RECT) (n : Int)
    (hcw : -8388608 < clientWidth p s rc ∧ clientWidth p s rc < 8388608)
    (hch : -8388608 < clientHeight p s rc ∧ clientHeight p s rc < 8388608)
    (htw : |(clientHeight p s rc : ℚ) * a| < 8388608)
    (hn : (clientHeight p s rc : ℚ) * a - (clientWidth p s rc : ℚ) = (n : ℚ)) :
    clientDeltaW p s a rc = n := by
  obtain ⟨⟨b1, b2⟩, _⟩ := clientDeltaW_between p s a rc hcw hch htw
  rw [hn, Int.floor_intCast] at b1
  rw [hn, Int.ceil_intCast] at b2
  omega

/-- The computed `d_h` when the exact difference `cw / a - ch` is an integer. -/
theorem clientDeltaH_eq_of_int (p : Platform) (s : State) (a : ℚ) (rc : RECT) (n : Int)
    (ha : a ≠ 0)
    (hcw : -8388608 < clientWidth p s rc ∧ clientWidth p s rc < 8388608)
    (hch : -8388608 < clientHeight p s rc ∧ clientHeight p s rc < 8388608)
    (hth : |(clientWidth p s rc : ℚ) / a| < 8388608)
    (hn : (clientWidth p s rc : ℚ) / a - (clientHeight p s rc : ℚ) = (n : ℚ)) :
    clientDeltaH p s a rc = n := by
  obtain ⟨⟨b1, b2⟩, _⟩ := clientDeltaH_between p s a rc ha hcw hch hth
  rw [hn, Int.floor_intCast] at b1
  rw [hn, Int.ceil_intCast] at b2
  omega

/-- C5 (amended). For every requested rectangle of `LONG` coordinates whose
client sizes are below `2 ^ 23` in magnitude and whose client area already
satisfies the aspect ratio exactly (`cw = ch * a`, `a` positive), and for
every resize handle, the `WM_SIZING` handler leaves the requested rectangle
unchanged. -/
theorem wm_sizing_identity_on_exact_aspect (p : Platform) (s : State) (a : ℚ) (v : Int)
    (rc : RECT) (ha : 0 < a) (hrc : rc.wf)
    (hcw : -8388608 < clientWidth p s rc ∧ clientWidth p s rc < 8388608)
    (hch : -8388608 < clientHeight p s rc ∧ clientHeight p s rc < 8388608)
    (hexact : (clientWidth p s rc : ℚ) = (clientHeight p s rc : ℚ) * a) :
    (WndProc_WM_SIZING p s a v rc).1 = rc := by
  by_cases hact : s.vo_keepaspect ≠ 0 ∧ ¬ (s.vo_fs ≠ 0) ∧ s.WinID < 0
  · obtain ⟨hk, hfs, hw⟩ := hact
    have htw : |(clientHeight p s rc : ℚ) * a| < 8388608 := by
      rw [← hexact]; exact abs_cast_lt_of_bounds _ hcw
    have hth : |(clientWidth p s rc : ℚ) / a| < 8388608 := by
      rw [hexact, mul_div_assoc, div_self (ne_of_gt ha), mul_one]
      exact abs_cast_lt_of_bounds _ hch
    have hw0 : clientDeltaW p s a rc = 0 :=
      clientDeltaW_eq_of_int p s a rc 0 hcw hch htw (by rw [hexact]; simp)
    have hh0 : clientDeltaH p s a rc = 0 :=
      clientDeltaH_eq_of_int p s a rc 0 (ne_of_gt ha) hcw hch hth (by
        rw [hexact, mul_div_assoc, div_self (ne_of_gt ha)]; simp)
    obtain ⟨_, ⟨t1, t2⟩, ⟨r1, r2⟩, ⟨b1, b2⟩⟩ := hrc
    rw [WndProc_WM_SIZING_active p s a v rc hk (not_not.mp hfs) hw, hw0, hh0]
    rw [show wrapI32 (-0) = 0 by decide, sub_zero, sub_zero, sub_zero,
      wrapI32_of_range rc.top t1 t2, wrapI32_of_range rc.right r1 r2,
      wrapI32_of_range rc.bottom b1 b2]
    split_ifs <;> rfl
  · rw [WndProc_WM_SIZING_inactive p s a v rc hact]

/-- Witness of C5 (amended): a 3:2 lock and a requested client area of
900 x 600. -/
theorem wm_sizing_identity_on_exact_aspect_witness :
    ((0 : ℚ) < 3 / 2 ∧ (⟨0, 0, 916, 639⟩ : RECT).wf
      ∧ clientWidth examplePlatform exampleState ⟨0, 0, 916, 639⟩ = 900
      ∧ clientHeight examplePlatform exampleState ⟨0, 0, 916, 639⟩ = 600
      ∧ (clientWidth examplePlatform exampleState ⟨0, 0, 916, 639⟩ : ℚ)
          = (clientHeight examplePlatform exampleState ⟨0, 0, 916, 639⟩ : ℚ) * (3 / 2))
    ∧ (WndProc_WM_SIZING examplePlatform exampleState (3 / 2) WMSZ_BOTTOMRIGHT
        ⟨0, 0, 916, 639⟩).1 = ⟨0, 0, 916, 639⟩ :=
  ⟨⟨by norm_num, by decide, by decide, by decide, by
      rw [show clientWidth examplePlatform exampleState ⟨0, 0, 916, 639⟩ = 900 by decide,
        show clientHeight examplePlatform exampleState ⟨0, 0, 916, 639⟩ = 600 by decide]
      norm_num⟩,
    wm_sizing_identity_on_exact_aspect examplePlatform exampleState (3 / 2) WMSZ_BOTTOMRIGHT
      ⟨0, 0, 916, 639⟩ (by norm_num) (by decide) (by decide) (by decide) (by
      rw [show clientWidth examplePlatform exampleState ⟨0, 0, 916, 639⟩ = 900 by decide,
        show clientHeight examplePlatform exampleState ⟨0, 0, 916, 639⟩ = 600 by decide]
      norm_num)⟩

/-- The value `d_w` for a client area of 50331651 x 16777217 and aspect 3: the
height is rounded to 16777216 and the width to 50331652 on conversion to
`float`. -/
theorem sizing_d_w_large_exact : sizing_d_w 50331651 16777217 3 = -4 := by
  have r1 : round32 ((16777217 : Int) : ℚ) = ((16777216 : Int) : ℚ) := by
    rw [round32_eval _ 24 8388608 (by decide) (by norm_num) (by norm_num)
      (roundEven_tie_even _ 8388608 (by norm_num) (by decide))]
    norm_num
  have r2 : round32 ((50331651 : Int) : ℚ) = ((50331652 : Int) : ℚ) := by
    rw [round32_eval _ 25 12582913 (by decide) (by norm_num) (by norm_num)
      (roundEven_eq_of_near _ 12582913 (by norm_num) (by norm_num))]
    norm_num
  have r3 : roundF32 (((16777216 : Int) : ℚ) * 3) = some ((50331648 : Int) : ℚ) := by
    rw [roundF32_eval _ 25 12582912 (by decide) (by norm_num) (by norm_num)
      (roundEven_eq_of_near _ 12582912 (by norm_num) (by norm_num)) (by norm_num)]
    norm_num
  have r4 : roundF32 (((50331648 : Int) : ℚ) - ((50331652 : Int) : ℚ))
      = some ((-4 : Int) : ℚ) := by
    rw [show ((50331648 : Int) : ℚ) - ((50331652 : Int) : ℚ) = ((-4 : Int) : ℚ) by norm_num]
    exact roundF32_intCast (-4) (by norm_num)
  unfold sizing_d_w
  rw [r1, r2, r3, Option.some_bind, r4]
  exact floatToInt32_intCast (-4) (by decide) (by decide)

/-- Counterexample to C5 as stated: a requested client area of
50331651 x 16777217 under a 3:1 lock satisfies `cw = ch * a` exactly, yet a
drag of the bottom edge moves the right coordinate from 50331667 to 50331663,
because neither size is a binary32 value. -/
theorem wm_sizing_large_exact_not_identity :
    ((0 : ℚ) < 3
      ∧ (clientWidth examplePlatform exampleState ⟨0, 0, 50331667, 16777256⟩ : ℚ)
          = (clientHeight examplePlatform exampleState ⟨0, 0, 50331667, 16777256⟩ : ℚ) * 3)
    ∧ WndProc_WM_SIZING examplePlatform exampleState 3 WMSZ_BOTTOM
        ⟨0, 0, 50331667, 16777256⟩ = (⟨0, 0, 50331663, 16777256⟩, true)
    ∧ (WndProc_WM_SIZING examplePlatform exampleState 3 WMSZ_BOTTOM
        ⟨0, 0, 50331667, 16777256⟩).1 ≠ ⟨0, 0, 50331667, 16777256⟩ := by
  have hw : clientWidth examplePlatform exampleState ⟨0, 0, 50331667, 16777256⟩
      = 50331651 := by decide
  have hh : clientHeight examplePlatform exampleState ⟨0, 0, 50331667, 16777256⟩
      = 16777217 := by decide
  have hd : clientDeltaW examplePlatform exampleState 3 ⟨0, 0, 50331667, 16777256⟩ = -4 := by
    unfold clientDeltaW
    rw [hw, hh, show wrapI32 50331651 = 50331651 by decide,
      show wrapI32 16777217 = 16777217 by decide]
    exact sizing_d_w_large_exact
  have hr : WndProc_WM_SIZING examplePlatform exampleState 3 WMSZ_BOTTOM
      ⟨0, 0, 50331667, 16777256⟩ = (⟨0, 0, 50331663, 16777256⟩, true) := by
    refine Prod.ext ?_ ?_
    · rw [WndProc_WM_SIZING_active examplePlatform exampleState 3 WMSZ_BOTTOM
        ⟨0, 0, 50331667, 16777256⟩ (by decide) rfl (by decide), hd]
      decide
    · simp [WndProc_WM_SIZING, exampleState]
  refine ⟨⟨by norm_num, by rw [hw, hh]; norm_num⟩, hr, ?_⟩
  rw [hr]
  decide

/-- C6. For every requested rectangle, aspect ratio and drag handle, the
`WM_SIZING` handler changes at most one of the four coordinates (left, top,
right, bottom), the one `get_resize_border` selects; the other three equal the
input.  In particular a left-edge drag leaves the three coordinates other than
the selected one unchanged, and a handle value that is none of the eight known
handles leaves the whole rectangle unmodified. -/
theorem wm_sizing_changes_only_selected_coordinate (p : Platform) (s : State) (a : ℚ)
    (v : Int) (rc : RECT) :
    (∀ i : Int, 0 ≤ i → i ≤ 3 → i ≠ get_resize_border v →
        (WndProc_WM_SIZING p s a v rc).1.coord i = rc.coord i)
    ∧ ((WndProc_WM_SIZING p s a WMSZ_LEFT rc).1.left = rc.left
        ∧ (WndProc_WM_SIZING p s a WMSZ_LEFT rc).1.top = rc.top
        ∧ (WndProc_WM_SIZING p s a WMSZ_LEFT rc).1.right = rc.right)
    ∧ ((v < 1 ∨ 8 < v) → (WndProc_WM_SIZING p s a v rc).1 = rc) := by
  have main : ∀ w : Int, ∀ i : Int, 0 ≤ i → i ≤ 3 → i ≠ get_resize_border w →
      (WndProc_WM_SIZING p s a w rc).1.coord i = rc.coord i := by
    intro w i h0 h3 hne
    by_cases hact : s.vo_keepaspect ≠ 0 ∧ ¬ (s.vo_fs ≠ 0) ∧ s.WinID < 0
    · obtain ⟨hk, hfs, hw⟩ := hact
      rw [WndProc_WM_SIZING_active p s a w rc hk (not_not.mp hfs) hw]
      have hi : i = 0 ∨ i = 1 ∨ i = 2 ∨ i = 3 := by omega
      rcases get_resize_border_cases w with h | h | h | h <;> rw [h] at hne ⊢ <;>
        rcases hi with e | e | e | e <;> subst e <;>
        first
          | exact absurd rfl hne
          | simp [RECT.coord]
    · rw [WndProc_WM_SIZING_inactive p s a w rc hact]
  have hleft : get_resize_border WMSZ_LEFT = 3 := by decide
  have l0 := main WMSZ_LEFT 0 (by decide) (by decide) (by rw [hleft]; decide)
  have l1 := main WMSZ_LEFT 1 (by decide) (by decide) (by rw [hleft]; decide)
  have l2 := main WMSZ_LEFT 2 (by decide) (by decide) (by rw [hleft]; decide)
  simp only [RECT.coord] at l0 l1 l2
  refine ⟨main v, ⟨by simpa using l0, by simpa using l1, by simpa using l2⟩, ?_⟩
  intro hv
  have hb := (get_resize_border_eq_neg_one_iff v).mpr hv
  by_cases hact : s.vo_keepaspect ≠ 0 ∧ ¬ (s.vo_fs ≠ 0) ∧ s.WinID < 0
  · obtain ⟨hk, hfs, hw⟩ := hact
    rw [WndProc_WM_SIZING_active p s a v rc hk (not_not.mp hfs) hw, hb]
    simp
  · rw [WndProc_WM_SIZING_inactive p s a v rc hact]

/-- Witness of C6: a handle value 9, outside the eight handles, under a 16:9
lock leaves the rectangle unmodified. -/
theorem wm_sizing_changes_only_selected_coordinate_witness :
    ((9 : Int) < 1 ∨ (8 : Int) < 9)
    ∧ (WndProc_WM_SIZING examplePlatform exampleState (16 / 9) 9 ⟨0, 0, 816, 639⟩).1
        = ⟨0, 0, 816, 639⟩ :=
  ⟨Or.inr (by decide),
    (wm_sizing_changes_only_selected_coordinate examplePlatform exampleState (16 / 9) 9
      ⟨0, 0, 816, 639⟩).2.2 (Or.inr (by decide))⟩

/-- C7 (amended). For every requested rectangle with coordinates below `2 ^ 30`
in magnitude whose client width and client height are positive and below
`2 ^ 23`, all border insets, every positive aspect ratio whose target sizes
`ch * a` and `cw / a` are at least 1 and below `2 ^ 23`, and every handle, the
rectangle left by the `WM_SIZING` handler has positive client width and
positive client height. -/
theorem wm_sizing_keeps_client_area_positive (p : Platform) (s : State) (a : ℚ) (v : Int)
    (rc : RECT) (ha : 0 < a) (hrc : rc.small)
    (hcw : 0 < clientWidth p s rc ∧ clientWidth p s rc < 8388608)
    (hch : 0 < clientHeight p s rc ∧ clientHeight p s rc < 8388608)
    (htw : 1 ≤ (clientHeight p s rc : ℚ) * a ∧ (clientHeight p s rc : ℚ) * a < 8388608)
    (hth : 1 ≤ (clientWidth p s rc : ℚ) / a ∧ (clientWidth p s rc : ℚ) / a < 8388608) :
    0 < clientWidth p s (WndProc_WM_SIZING p s a v rc).1
    ∧ 0 < clientHeight p s (WndProc_WM_SIZING p s a v rc).1 := by
  by_cases hact : s.vo_keepaspect ≠ 0 ∧ ¬ (s.vo_fs ≠ 0) ∧ s.WinID < 0
  · obtain ⟨hk, hfs, hw⟩ := hact
    have hcw1 : -8388608 < clientWidth p s rc ∧ clientWidth p s rc < 8388608 :=
      ⟨by omega, hcw.2⟩
    have hch1 : -8388608 < clientHeight p s rc ∧ clientHeight p s rc < 8388608 :=
      ⟨by omega, hch.2⟩
    have htw1 : |(clientHeight p s rc : ℚ) * a| < 8388608 := by
      rw [abs_lt]; constructor <;> linarith [htw.1, htw.2]
    have hth1 : |(clientWidth p s rc : ℚ) / a| < 8388608 := by
      rw [abs_lt]; constructor <;> linarith [hth.1, hth.2]
    obtain ⟨bw, rw1⟩ := clientDeltaW_between p s a rc hcw1 hch1 htw1
    obtain ⟨bh, rh1⟩ := clientDeltaH_between p s a rc (ne_of_gt ha) hcw1 hch1 hth1
    rw [WndProc_WM_SIZING_active_small p s a v rc hk (not_not.mp hfs) hw hrc rw1 rh1]
    have pw : 1 ≤ clientWidth p s rc + clientDeltaW p s a rc := by
      have h1 : (1 : Int) ≤ ⌊(clientHeight p s rc : ℚ) * a⌋ :=
        Int.le_floor.mpr (by exact_mod_cast htw.1)
      have h2 := bw.1
      rw [Int.floor_sub_int] at h2
      omega
    have ph : 1 ≤ clientHeight p s rc + clientDeltaH p s a rc := by
      have h1 : (1 : Int) ≤ ⌊(clientWidth p s rc : ℚ) / a⌋ :=
        Int.le_floor.mpr (by exact_mod_cast hth.1)
      have h2 := bh.1
      rw [Int.floor_sub_int] at h2
      omega
    generalize clientDeltaW p s a rc = dw at pw
    generalize clientDeltaH p s a rc = dh at ph
    rcases get_resize_border_cases v with h | h | h | h <;> rw [h]
    · have e1 : clientWidth p s { rc with top := rc.top - dh } = clientWidth p s rc := by
        simp [clientWidth, subtract_window_borders]
      have e2 : clientHeight p s { rc with top := rc.top - dh } = clientHeight p s rc + dh := by
        simp only [clientHeight, subtract_window_borders]; ring
      simp only [if_true]
      rw [e1, e2]
      exact ⟨hcw.1, by omega⟩
    · have e1 : clientHeight p s { rc with right := rc.right + dw } = clientHeight p s rc := by
        simp [clientHeight, subtract_window_borders]
      have e2 : clientWidth p s { rc with right := rc.right + dw }
          = clientWidth p s rc + dw := by
        simp only [clientWidth, subtract_window_borders]; ring
      simp only [show ¬ ((2 : Int) = 1) by decide, if_false, if_true]
      rw [e1, e2]
      exact ⟨by omega, hch.1⟩
    · have e1 : clientWidth p s { rc with bottom := rc.bottom + dh } = clientWidth p s rc := by
        simp [clientWidth, subtract_window_borders]
      have e2 : clientHeight p s { rc with bottom := rc.bottom + dh }
          = clientHeight p s rc + dh := by
        simp only [clientHeight, subtract_window_borders]; ring
      simp only [show ¬ ((3 : Int) = 1) by decide, show ¬ ((3 : Int) = 2) by decide,
        if_false, if_true]
      rw [e1, e2]
      exact ⟨hcw.1, by omega⟩
    · simp only [show ¬ ((-1 : Int) = 1) by decide, show ¬ ((-1 : Int) = 2) by decide,
        show ¬ ((-1 : Int) = 3) by decide, if_false]
      exact ⟨hcw.1, hch.1⟩
  · rw [WndProc_WM_SIZING_inactive p s a v rc hact]
    exact ⟨hcw.1, hch.1⟩

/-- Witness of C7 (amended): a 3:2 lock, a drag of the left edge, a requested
client area of 800 x 600. -/
theorem wm_sizing_keeps_client_area_positive_witness :
    ((0 : ℚ) < 3 / 2 ∧ (⟨0, 0, 816, 639⟩ : RECT).small
      ∧ clientWidth examplePlatform exampleState ⟨0, 0, 816, 639⟩ = 800
      ∧ clientHeight examplePlatform exampleState ⟨0, 0, 816, 639⟩ = 600)
    ∧ (0 < clientWidth examplePlatform exampleState
          (WndProc_WM_SIZING examplePlatform exampleState (3 / 2) WMSZ_LEFT
            ⟨0, 0, 816, 639⟩).1
      ∧ 0 < clientHeight examplePlatform exampleState
          (WndProc_WM_SIZING examplePlatform exampleState (3 / 2) WMSZ_LEFT
            ⟨0, 0, 816, 639⟩).1) :=
  ⟨⟨by norm_num, by decide, by decide, by decide⟩,
    wm_sizing_keeps_client_area_positive examplePlatform exampleState (3 / 2) WMSZ_LEFT
      ⟨0, 0, 816, 639⟩ (by norm_num) (by decide) (by decide) (by decide)
      (by
        rw [show clientHeight examplePlatform exampleState ⟨0, 0, 816, 639⟩ = 600 by decide]
        norm_num)
      (by
        rw [show clientWidth examplePlatform exampleState ⟨0, 0, 816, 639⟩ = 800 by decide]
        norm_num)⟩

/-- Counterexample to C7 as stated: under a 1:1 lock, a left-edge drag whose
requested rectangle has client width 0 and client height 100 is not rejected:
the correction is applied (the bottom moves from 139 to 39) and the resulting
client area is 0 x 0. -/
theorem wm_sizing_yields_empty_client_area :
    clientWidth examplePlatform exampleState ⟨0, 0, 16, 139⟩ = 0
    ∧ clientHeight examplePlatform exampleState ⟨0, 0, 16, 139⟩ = 100
    ∧ WndProc_WM_SIZING examplePlatform exampleState 1 WMSZ_LEFT ⟨0, 0, 16, 139⟩
        = (⟨0, 0, 16, 39⟩, true)
    ∧ clientWidth examplePlatform exampleState
        (WndProc_WM_SIZING examplePlatform exampleState 1 WMSZ_LEFT ⟨0, 0, 16, 139⟩).1 = 0
    ∧ clientHeight examplePlatform exampleState
        (WndProc_WM_SIZING examplePlatform exampleState 1 WMSZ_LEFT ⟨0, 0, 16, 139⟩).1 = 0 := by
  have hw : clientWidth examplePlatform exampleState ⟨0, 0, 16, 139⟩ = 0 := by decide
  have hh : clientHeight examplePlatform exampleState ⟨0, 0, 16, 139⟩ = 100 := by decide
  have hd : clientDeltaH examplePlatform exampleState 1 ⟨0, 0, 16, 139⟩ = -100 :=
    clientDeltaH_eq_of_int examplePlatform exampleState 1 ⟨0, 0, 16, 139⟩ (-100)
      one_ne_zero (by decide) (by decide) (by rw [hw]; norm_num) (by rw [hw, hh]; norm_num)
  have hr : WndProc_WM_SIZING examplePlatform exampleState 1 WMSZ_LEFT ⟨0, 0, 16, 139⟩
      = (⟨0, 0, 16, 39⟩, true) := by
    refine Prod.ext ?_ ?_
    · rw [WndProc_WM_SIZING_active examplePlatform exampleState 1 WMSZ_LEFT ⟨0, 0, 16, 139⟩
        (by decide) rfl (by decide), hd]
      decide
    · simp [WndProc_WM_SIZING, exampleState]
  refine ⟨hw, hh, hr, ?_, ?_⟩
  · rw [hr]; decide
  · rw [hr]; decide

/-! ## Explicit monitor index -/

/-- The callback keeps the requested index. -/
theorem mon_enum_xinerama_screen (r : RECT) (s : State) :
    (mon_enum r s).1.xinerama_screen = s.xinerama_screen := by
  unfold mon_enum
  simp only
  split <;> rfl

/-- When the requested index is not reached before the last monitor, the
enumeration ends with the rectangle of the last monitor. -/
theorem EnumDisplayMonitors_last (rs : List RECT) (hne : rs ≠ []) (s : State)
    (h : s.mon_cnt + (rs.length : Int) - 1 ≤ s.xinerama_screen) :
    screenRect (EnumDisplayMonitors rs s) = (rs.getLast hne).originSize := by
  induction rs generalizing s with
  | nil => exact absurd rfl hne
  | cons r rest ih =>
    cases rest with
    | nil =>
      unfold EnumDisplayMonitors mon_enum
      simp only
      split_ifs <;> simp [EnumDisplayMonitors, screenRect, RECT.originSize]
    | cons r2 rest2 =>
      have hlt : s.mon_cnt ≠ s.xinerama_screen := by
        simp only [List.length_cons] at h
        push_cast at h
        omega
      have hstep : mon_enum r s =
          ({ s with xinerama_x := r.left, xinerama_y := r.top,
                    vo_screenwidth := r.right - r.left,
                    vo_screenheight := r.bottom - r.top,
                    mon_cnt := s.mon_cnt + 1 }, true) := by
        unfold mon_enum
        simp only
        rw [if_neg hlt]
      rw [EnumDisplayMonitors, hstep]
      simp only
      rw [ih (List.cons_ne_nil r2 rest2)]
      · rw [List.getLast_cons (List.cons_ne_nil r2 rest2)]
      · simp only [List.length_cons] at h ⊢
        push_cast at h ⊢
        omega

/-- C8. For every non-empty list of `c` monitors in enumeration order and every
explicit monitor index `n >= c`, `w32_update_xinerama_info` resolves the screen
origin and size to the rectangle of the last enumerated monitor; for `c >= 2`
the index `c - 1` resolves to the same rectangle. -/
theorem explicit_index_beyond_count_resolves_last (p : Platform) (s : State) (n : Int)
    (hne : p.monitors ≠ []) (hn : (p.monitors.length : Int) ≤ n) :
    screenRect (w32_update_xinerama_info p { s with xinerama_screen := n }).1
      = (p.monitors.getLast hne).originSize
    ∧ (2 ≤ p.monitors.length →
        screenRect (w32_update_xinerama_info p
          { s with xinerama_screen := (p.monitors.length : Int) - 1 }).1
        = screenRect (w32_update_xinerama_info p { s with xinerama_screen := n }).1) := by
  have hlen : 1 ≤ (p.monitors.length : Int) := by
    have : p.monitors.length ≠ 0 := fun h => hne (List.length_eq_zero.mp h)
    omega
  have key : ∀ k : Int, (p.monitors.length : Int) - 1 ≤ k → 0 < k →
      screenRect (w32_update_xinerama_info p { s with xinerama_screen := k }).1
        = (p.monitors.getLast hne).originSize := by
    intro k hk hpos
    unfold w32_update_xinerama_info
    simp only
    rw [if_neg (by omega), if_neg (by omega), if_pos (by omega)]
    exact EnumDisplayMonitors_last p.monitors hne _ (by simpa using hk)
  refine ⟨key n (by omega) (by omega), ?_⟩
  intro h2
  rw [key n (by omega) (by omega), key _ (le_refl _) (by omega)]

/-- Witness of C8: on a system with two monitors index 5 and index 1 resolve to
the same rectangle, that of the second monitor. -/
theorem explicit_index_beyond_count_resolves_last_witness :
    ((twoMonitorPlatform.monitors.length : Int) ≤ 5 ∧ 2 ≤ twoMonitorPlatform.monitors.length)
    ∧ screenRect (w32_update_xinerama_info twoMonitorPlatform
        { exampleState with xinerama_screen := 5 }).1 = (1920, 0, 1280, 1024)
    ∧ screenRect (w32_update_xinerama_info twoMonitorPlatform
        { exampleState with xinerama_screen := 1 }).1
      = screenRect (w32_update_xinerama_info twoMonitorPlatform
        { exampleState with xinerama_screen := 5 }).1 :=
  ⟨⟨by decide, by decide⟩,
    (explicit_index_beyond_count_resolves_last twoMonitorPlatform exampleState 5
      (by decide) (by decide)).1,
    (explicit_index_beyond_count_resolves_last twoMonitorPlatform exampleState 5
      (by decide) (by decide)).2 (by decide)⟩

/-! ## Character input -/

/-- A mask that was or-ed into a value is contained in it. -/
theorem or_and_self_right (x y : Nat) : (x ||| y) &&& y = y := by
  apply Nat.eq_of_testBit_eq
  intro i
  simp only [Nat.testBit_and, Nat.testBit_or]
  cases x.testBit i <;> cases y.testBit i <;> rfl

/-- Or-ing a mask disjoint from `z` keeps the bits of `z`. -/
theorem or_and_of_disjoint (x y z : Nat) (h : y &&& z = 0) : (x ||| y) &&& z = x &&& z := by
  apply Nat.eq_of_testBit_eq
  intro i
  have hi : (y &&& z).testBit i = false := by rw [h]; simp
  simp only [Nat.testBit_and, Nat.testBit_or] at hi ⊢
  cases hx : x.testBit i <;> cases hy : y.testBit i <;> cases hz : z.testBit i <;>
    simp_all

/-- With Ctrl down the sampled modifier mask contains the Ctrl bits. -/
theorem mod_state_ctrl (K : Keycodes) (ks : Nat → Bool) (hctrl : ks VK_CONTROL = true)
    (hK : K.distinctBits) :
    mod_state K ks &&& K.KEY_MODIFIER_CTRL = K.KEY_MODIFIER_CTRL := by
  obtain ⟨_, _, h3, h4⟩ := hK
  apply Nat.eq_of_testBit_eq
  intro i
  unfold mod_state key_state
  simp only [hctrl, if_true]
  cases ks VK_SHIFT <;> cases ks VK_MENU <;>
    simp only [if_true, Bool.false_eq_true, if_false, Nat.testBit_and, Nat.testBit_or,
      Nat.zero_or] <;>
    cases K.KEY_MODIFIER_CTRL.testBit i <;> simp

/-- With Ctrl down the Shift bits of the sampled modifier mask are set exactly
when Shift is down. -/
theorem mod_state_shift (K : Keycodes) (ks : Nat → Bool) (hctrl : ks VK_CONTROL = true)
    (hK : K.distinctBits) :
    (mod_state K ks &&& K.KEY_MODIFIER_SHIFT ≠ 0) ↔ ks VK_SHIFT = true := by
  obtain ⟨_, h2, h3, h4⟩ := hK
  unfold mod_state key_state
  simp only [hctrl, if_true, Nat.zero_or]
  cases ks VK_SHIFT <;> cases ks VK_MENU <;>
    simp only [if_true, Bool.false_eq_true, if_false]
  · simp [h3]
  · simp [or_and_of_disjoint, h3, h4]
  · simp [or_and_self_right, h2]
  · rw [or_and_of_disjoint _ _ _ h4, or_and_self_right]
    simp [h2]

/-- C9. For every character-input message with raw code `c` in 1..26, Ctrl
held, the alternate-graphics key not held and Enter not held, the handler
emits exactly one key event: the letter `'a' + (c - 1)` when Shift is not held
and `'A' + (c - 1)` when Shift is held, bitwise-or-ed with the sampled modifier
mask, which contains the Ctrl bits. -/
theorem wm_char_ctrl_letter (K : Keycodes) (ks : Nat → Bool) (c : Int)
    (hK : K.distinctBits) (hc : 1 ≤ c ∧ c ≤ 26)
    (hctrl : ks VK_CONTROL = true) (haltgr : ks VK_RMENU = false)
    (hret : ks VK_RETURN = false) :
    WndProc_WM_CHAR K ks c
      = ([(c - 1 + (if ks VK_SHIFT = true then 65 else 97)).toNat ||| mod_state K ks], true)
    ∧ mod_state K ks &&& K.KEY_MODIFIER_CTRL = K.KEY_MODIFIER_CTRL := by
  have h1 := mod_state_ctrl K ks hctrl hK
  have h2 := mod_state_shift K ks hctrl hK
  refine ⟨?_, h1⟩
  unfold WndProc_WM_CHAR
  simp only [key_state, haltgr, hret, Bool.false_eq_true, if_false, h1]
  have e1 : (if K.KEY_MODIFIER_CTRL ≠ 0 ∧ c ≥ 1 ∧ c ≤ 26 ∧ ¬ False then
        c - 1 + (if mod_state K ks &&& K.KEY_MODIFIER_SHIFT ≠ 0 then 65 else 97)
      else c) = c - 1 + (if ks VK_SHIFT = true then 65 else 97) := by
    rw [if_pos ⟨hK.1, hc.1, hc.2, not_false⟩]
    by_cases hs : ks VK_SHIFT = true
    · rw [if_pos (h2.mpr hs), if_pos hs]
    · rw [if_neg (fun h => hs (h2.mp h)), if_neg hs]
  rw [e1]
  have e2 : c - 1 + (if ks VK_SHIFT = true then (65 : Int) else 97) ≥ 32
      ∧ c - 1 + (if ks VK_SHIFT = true then (65 : Int) else 97) < 2097152 := by
    split_ifs <;> omega
  rw [if_pos e2]

/-- Witness of C9: raw code 3 with only Ctrl down yields `'c'` (99) or-ed with the
Ctrl modifier. -/
theorem wm_char_ctrl_letter_witness :
    (exampleKeycodes.distinctBits ∧ ((1 : Int) ≤ 3 ∧ (3 : Int) ≤ 26)
      ∧ ctrlDown VK_CONTROL = true ∧ ctrlDown VK_RMENU = false ∧ ctrlDown VK_RETURN = false
      ∧ ctrlDown VK_SHIFT = false)
    ∧ (WndProc_WM_CHAR exampleKeycodes ctrlDown 3
        = ([(3 - 1 + (if ctrlDown VK_SHIFT = true then 65 else 97) : Int).toNat
              ||| mod_state exampleKeycodes ctrlDown], true)
      ∧ mod_state exampleKeycodes ctrlDown &&& exampleKeycodes.KEY_MODIFIER_CTRL
          = exampleKeycodes.KEY_MODIFIER_CTRL)
    ∧ WndProc_WM_CHAR exampleKeycodes ctrlDown 3
        = ([99 ||| exampleKeycodes.KEY_MODIFIER_CTRL], true) :=
  ⟨⟨by decide, by decide, by decide, by decide, by decide, by decide⟩,
    wm_char_ctrl_letter exampleKeycodes ctrlDown 3 (by decide) (by decide) (by decide)
      (by decide) (by decide),
    by decide⟩

/-- C10 (amended). For a character-input message with a raw code in the control
range 1..26 while the physical Enter key is held, the character handler does
not remap the code and emits no key event at all, in particular not the
remapped letter; the message falls through to the default handling. -/
theorem wm_char_enter_held_emits_nothing (K : Keycodes) (ks : Nat → Bool) (c : Int)
    (hc : 1 ≤ c ∧ c ≤ 26) (hret : ks VK_RETURN = true) :
    WndProc_WM_CHAR K ks c = ([], false) := by
  unfold WndProc_WM_CHAR
  simp only [key_state, hret, not_true_eq_false, and_false, if_false]
  rw [if_neg (by omega)]

/-- Witness of C10 (amended): raw code 3 with Ctrl and Enter down. -/
theorem wm_char_enter_held_emits_nothing_witness :
    (((1 : Int) ≤ 3 ∧ (3 : Int) ≤ 26) ∧ ctrlEnterDown VK_RETURN = true)
    ∧ WndProc_WM_CHAR exampleKeycodes ctrlEnterDown 3 = ([], false) :=
  ⟨⟨by decide, by decide⟩,
    wm_char_enter_held_emits_nothing exampleKeycodes ctrlEnterDown 3 (by decide) (by decide)⟩

/-- Counterexample to C10 as stated: with Ctrl and Enter down and raw code 3 the
character handler emits no key event, so no Enter key event (plain or with
modifiers) comes out of the text-input handling. -/
theorem wm_char_enter_held_no_enter_event :
    ctrlEnterDown VK_CONTROL = true ∧ ctrlEnterDown VK_RETURN = true
    ∧ (WndProc_WM_CHAR exampleKeycodes ctrlEnterDown 3).1 = []
    ∧ exampleKeycodes.KEY_ENTER ∉ (WndProc_WM_CHAR exampleKeycodes ctrlEnterDown 3).1
    ∧ (exampleKeycodes.KEY_ENTER ||| mod_state exampleKeycodes ctrlEnterDown)
        ∉ (WndProc_WM_CHAR exampleKeycodes ctrlEnterDown 3).1 := by
  refine ⟨by decide, by decide, by decide, by decide, by decide⟩

/-! ## Configuration -/

theorem sameRequest_refl (a : State) : SameRequest a a := by
  simp [SameRequest]

theorem sameRequest_trans {a b c : State} (h1 : SameRequest a b) (h2 : SameRequest b c) :
    SameRequest a c := by
  simp only [SameRequest] at *
  obtain ⟨a1, a2, a3⟩ := h1
  obtain ⟨b1, b2, b3⟩ := h2
  exact ⟨a1.trans b1, a2.trans b2, a3.trans b3⟩

theorem mon_enum_sameRequest (r : RECT) (s : State) : SameRequest (mon_enum r s).1 s := by
  unfold mon_enum
  simp only
  split <;> simp [SameRequest]

theorem EnumDisplayMonitors_sameRequest (rs : List RECT) (s : State) :
    SameRequest (EnumDisplayMonitors rs s) s := by
  induction rs generalizing s with
  | nil => exact sameRequest_refl s
  | cons r rs ih =>
    have h := mon_enum_sameRequest r s
    unfold EnumDisplayMonitors
    rcases hm : mon_enum r s with ⟨s1, b⟩
    rw [hm] at h
    cases b
    · exact h
    · exact sameRequest_trans (ih s1) h

theorem w32_update_xinerama_info_sameRequest (p : Platform) (s : State) :
    SameRequest (w32_update_xinerama_info p s).1 s := by
  unfold w32_update_xinerama_info
  simp only
  split_ifs
  all_goals first
    | (simp [SameRequest]; done)
    | exact sameRequest_trans (EnumDisplayMonitors_sameRequest _ _) (by simp [SameRequest])

theorem updateScreenProperties_sameRequest (p : Platform) (s : State) :
    SameRequest (updateScreenProperties p s).1 s := by
  unfold updateScreenProperties
  cases p.currentSettings with
  | none => exact sameRequest_refl s
  | some dm =>
    exact sameRequest_trans (w32_update_xinerama_info_sameRequest p _) (by simp [SameRequest])

/-- Fields of `reinitAfterScreen` on a state that is not fullscreen. -/
theorem reinitAfterScreen_windowed (toggle_fs : Bool) (style : Nat) (u : State)
    (h : u.vo_fs = 0) :
    let r := reinitAfterScreen toggle_fs style u
    r.window_bounds_initialized = u.window_bounds_initialized
    ∧ (toggle_fs = true → r.window_x = u.prev_x ∧ r.window_y = u.prev_y
        ∧ r.dwidth = u.prev_width ∧ r.dheight = u.prev_height)
    ∧ (toggle_fs = false → r.window_x = u.window_x ∧ r.window_y = u.window_y
        ∧ r.dwidth = u.dwidth ∧ r.dheight = u.dheight) := by
  cases toggle_fs <;> simp [reinitAfterScreen, h]

/-- Fields of the prepared state that do not depend on the branch taken. -/
theorem vo_w32_config_prepare_common (F : VoFlags) (p : Platform) (s : State)
    (width height flags : Nat) :
    (vo_w32_config_prepare F p s width height flags).WinID = s.WinID
    ∧ (vo_w32_config_prepare F p s width height flags).current_fs = s.current_fs
    ∧ (vo_w32_config_prepare F p s width height flags).vo_fs
        = toI32 (flags &&& F.VOFLAG_FULLSCREEN)
    ∧ (vo_w32_config_prepare F p s width height flags).vm
        = toI32 (flags &&& F.VOFLAG_MODESWITCHING) := by
  unfold vo_w32_config_prepare
  simp only
  split_ifs <;> simp

/-- The prepared state of the first configuration of a non-embedded window. -/
theorem vo_w32_config_prepare_first (F : VoFlags) (p : Platform) (s : State)
    (width height flags : Nat) (hwin : s.WinID < 0)
    (hfirst : s.window_bounds_initialized = false) :
    let t := vo_w32_config_prepare F p s width height flags
    t.window_bounds_initialized = true
    ∧ (t.window_x = s.dx ∧ t.window_y = s.dy ∧ t.dwidth = toI32 width
        ∧ t.dheight = toI32 height)
    ∧ (t.prev_x = s.dx ∧ t.prev_y = s.dy ∧ t.prev_width = toI32 width
        ∧ t.prev_height = toI32 height) := by
  simp [vo_w32_config_prepare, hwin, hfirst]

/-- The prepared state of a later configuration with an unchanged requested size. -/
theorem vo_w32_config_prepare_again (F : VoFlags) (p : Platform) (s : State)
    (width height flags : Nat) (hwin : s.WinID < 0)
    (hinit : s.window_bounds_initialized = true)
    (hw : s.o_dwidth = width) (hh : s.o_dheight = height) :
    let t := vo_w32_config_prepare F p s width height flags
    t.dwidth = p.clientRect.right ∧ t.dheight = p.clientRect.bottom := by
  simp [vo_w32_config_prepare, hwin, hinit, hw, hh]

/-- Conversion of a `uint32_t` below `2 ^ 31` to `int` keeps the value. -/
theorem toI32_of_lt (n : Nat) (h : n < 2147483648) : toI32 n = (n : Int) := by
  unfold toI32
  have : n % 4294967296 = n := Nat.mod_eq_of_lt (by omega)
  rw [this, if_pos h]

/-- The state left by `reinit_window_state` on a non-embedded window whose
fullscreen flag is clear: the saved geometry when the recorded status was
fullscreen, the current geometry otherwise. -/
theorem reinit_window_state_windowed (p : Platform) (t : State)
    (hwin : t.WinID < 0) (hfs : t.vo_fs = 0) :
    (reinit_window_state p t).1.window_bounds_initialized = t.window_bounds_initialized
    ∧ (t.current_fs = true →
        (reinit_window_state p t).1.window_x = t.prev_x
        ∧ (reinit_window_state p t).1.window_y = t.prev_y
        ∧ (reinit_window_state p t).1.dwidth = t.prev_width
        ∧ (reinit_window_state p t).1.dheight = t.prev_height)
    ∧ (t.current_fs = false →
        (reinit_window_state p t).1.window_x = t.window_x
        ∧ (reinit_window_state p t).1.window_y = t.window_y
        ∧ (reinit_window_state p t).1.dwidth = t.dwidth
        ∧ (reinit_window_state p t).1.dheight = t.dheight) := by
  rw [reinit_window_state_fst p t hwin]
  have k := updateScreenProperties_sameWindow p
    { t with current_fs := decide (t.vo_fs ≠ 0) }
  have q := updateScreenProperties_sameRequest p
    { t with current_fs := decide (t.vo_fs ≠ 0) }
  simp only [SameWindow] at k
  simp only [SameRequest] at q
  obtain ⟨k1, k2, k3, k4, k5, k6, k7, k8, k9, _, _, _, _⟩ := k
  obtain ⟨q1, _, _⟩ := q
  obtain ⟨g0, gt, gf⟩ := reinitAfterScreen_windowed
    (decide ((if t.current_fs then (1 : Int) else 0) ≠ t.vo_fs))
    (update_style { t with current_fs := decide (t.vo_fs ≠ 0) } t.style)
    (updateScreenProperties p { t with current_fs := decide (t.vo_fs ≠ 0) }).1
    (k9.trans hfs)
  refine ⟨g0.trans q1, ?_, ?_⟩
  · intro hcur
    have htog : decide ((if t.current_fs then (1 : Int) else 0) ≠ t.vo_fs) = true := by
      rw [hcur, hfs]; decide
    rw [htog] at gt ⊢
    obtain ⟨a1, a2, a3, a4⟩ := gt rfl
    exact ⟨a1.trans k5, a2.trans k6, a3.trans k7, a4.trans k8⟩
  · intro hcur
    have htog : decide ((if t.current_fs then (1 : Int) else 0) ≠ t.vo_fs) = false := by
      rw [hcur, hfs]; decide
    rw [htog] at gf ⊢
    obtain ⟨a1, a2, a3, a4⟩ := gf rfl
    exact ⟨a1.trans k1, a2.trans k2, a3.trans k3, a4.trans k4⟩

/-- A successful, non-hidden `vo_w32_config` returns what `reinit_window_state`
leaves on the prepared state. -/
theorem vo_w32_config_shown (F : VoFlags) (p : Platform) (pf : Int) (s : State)
    (width height flags : Nat) (hpf : pf ≠ 0) (hhid : flags &&& F.VOFLAG_HIDDEN = 0) :
    vo_w32_config F p pf s width height flags
      = ((reinit_window_state p (vo_w32_config_prepare F p s width height flags)).1,
         (reinit_window_state p (vo_w32_config_prepare F p s width height flags)).2, 1) := by
  unfold vo_w32_config
  rw [if_neg hpf, if_neg (by simp [hhid])]

/-- C11. For a non-embedded window and non-hidden, non-fullscreen flags, a
successful `vo_w32_config` returns 1 and (1) on the first call (bounds not yet
initialised) the window size becomes the requested (width, height), the
position becomes the caller-chosen (`dx`, `dy`) and `window_bounds_initialized`
becomes true; (2) on a later call whose (width, height) equals the last
requested size, while windowed, the window size is the live client rectangle
read with `GetClientRect`, whatever the requested size. -/
theorem vo_w32_config_first_and_repeated (F : VoFlags) (p : Platform) (pf : Int)
    (s : State) (width height flags : Nat)
    (hwin : s.WinID < 0) (hpf : pf ≠ 0)
    (hhid : flags &&& F.VOFLAG_HIDDEN = 0) (hfs : flags &&& F.VOFLAG_FULLSCREEN = 0) :
    (vo_w32_config F p pf s width height flags).2.2 = 1
    ∧ (s.window_bounds_initialized = false →
        (vo_w32_config F p pf s width height flags).1.dwidth = toI32 width
        ∧ (vo_w32_config F p pf s width height flags).1.dheight = toI32 height
        ∧ (width < 2147483648 →
            (vo_w32_config F p pf s width height flags).1.dwidth = (width : Int))
        ∧ (height < 2147483648 →
            (vo_w32_config F p pf s width height flags).1.dheight = (height : Int))
        ∧ (vo_w32_config F p pf s width height flags).1.window_x = s.dx
        ∧ (vo_w32_config F p pf s width height flags).1.window_y = s.dy
        ∧ (vo_w32_config F p pf s width height flags).1.window_bounds_initialized = true)
    ∧ (s.window_bounds_initialized = true → s.o_dwidth = width → s.o_dheight = height →
        s.current_fs = false →
        (vo_w32_config F p pf s width height flags).1.dwidth = p.clientRect.right
        ∧ (vo_w32_config F p pf s width height flags).1.dheight = p.clientRect.bottom) := by
  obtain ⟨c1, c2, c3, _⟩ := vo_w32_config_prepare_common F p s width height flags
  have hfs0 : (vo_w32_config_prepare F p s width height flags).vo_fs = 0 := by
    rw [c3, hfs]; decide
  have hwin1 : (vo_w32_config_prepare F p s width height flags).WinID < 0 := by
    rw [c1]; exact hwin
  obtain ⟨r0, rt, rf⟩ :=
    reinit_window_state_windowed p (vo_w32_config_prepare F p s width height flags) hwin1 hfs0
  rw [vo_w32_config_shown F p pf s width height flags hpf hhid]
  simp only
  refine ⟨trivial, ?_, ?_⟩
  · intro hfirst
    obtain ⟨f0, ⟨f1, f2, f3, f4⟩, ⟨f5, f6, f7, f8⟩⟩ :=
      vo_w32_config_prepare_first F p s width height flags hwin hfirst
    have geo : (reinit_window_state p
          (vo_w32_config_prepare F p s width height flags)).1.window_x = s.dx
        ∧ (reinit_window_state p
          (vo_w32_config_prepare F p s width height flags)).1.window_y = s.dy
        ∧ (reinit_window_state p
          (vo_w32_config_prepare F p s width height flags)).1.dwidth = toI32 width
        ∧ (reinit_window_state p
          (vo_w32_config_prepare F p s width height flags)).1.dheight = toI32 height := by
      cases hcur : (vo_w32_config_prepare F p s width height flags).current_fs
      · obtain ⟨a1, a2, a3, a4⟩ := rf hcur
        exact ⟨a1.trans f1, a2.trans f2, a3.trans f3, a4.trans f4⟩
      · obtain ⟨a1, a2, a3, a4⟩ := rt hcur
        exact ⟨a1.trans f5, a2.trans f6, a3.trans f7, a4.trans f8⟩
    obtain ⟨e1, e2, e3, e4⟩ := geo
    refine ⟨e3, e4, ?_, ?_, e1, e2, r0.trans f0⟩
    · intro hlt; rw [e3]; exact toI32_of_lt width hlt
    · intro hlt; rw [e4]; exact toI32_of_lt height hlt
  · intro hinit hw hh hcur
    obtain ⟨f3, f4⟩ := vo_w32_config_prepare_again F p s width height flags hwin hinit hw hh
    obtain ⟨_, _, a3, a4⟩ := rf (c2.trans hcur)
    exact ⟨a3.trans f3, a4.trans f4⟩

/-- Witness of C11: the first configuration of the fresh window at 640 x 480
puts it at (640, 300) with size 640 x 480; a repeated 640 x 480 configuration
of the example window, resized by the user to 800 x 600, keeps 800 x 600. -/
theorem vo_w32_config_first_and_repeated_witness :
    (freshState.WinID < 0 ∧ (1 : Int) ≠ 0 ∧ 0 &&& exampleVoFlags.VOFLAG_HIDDEN = 0
      ∧ 0 &&& exampleVoFlags.VOFLAG_FULLSCREEN = 0
      ∧ freshState.window_bounds_initialized = false)
    ∧ ((vo_w32_config exampleVoFlags examplePlatform 1 freshState 640 480 0).1.dwidth = 640
      ∧ (vo_w32_config exampleVoFlags examplePlatform 1 freshState 640 480 0).1.dheight = 480
      ∧ (vo_w32_config exampleVoFlags examplePlatform 1 freshState 640 480 0).1.window_x = 640
      ∧ (vo_w32_config exampleVoFlags examplePlatform 1 freshState 640 480 0).1.window_y = 300
      ∧ (vo_w32_config exampleVoFlags examplePlatform 1 freshState 640 480
          0).1.window_bounds_initialized = true)
    ∧ (exampleState.WinID < 0 ∧ exampleState.window_bounds_initialized = true
      ∧ exampleState.o_dwidth = 640 ∧ exampleState.o_dheight = 480
      ∧ exampleState.current_fs = false)
    ∧ ((vo_w32_config exampleVoFlags resizedPlatform 1 exampleState 640 480 0).1.dwidth = 800
      ∧ (vo_w32_config exampleVoFlags resizedPlatform 1 exampleState 640 480 0).1.dheight
          = 600) :=
  ⟨⟨by decide, by decide, by decide, by decide, rfl⟩,
    ⟨((vo_w32_config_first_and_repeated exampleVoFlags examplePlatform 1 freshState 640 480 0
        (by decide) (by decide) (by decide) (by decide)).2.1 rfl).2.2.1 (by decide),
      ((vo_w32_config_first_and_repeated exampleVoFlags examplePlatform 1 freshState 640 480 0
        (by decide) (by decide) (by decide) (by decide)).2.1 rfl).2.2.2.1 (by decide),
      ((vo_w32_config_first_and_repeated exampleVoFlags examplePlatform 1 freshState 640 480 0
        (by decide) (by decide) (by decide) (by decide)).2.1 rfl).2.2.2.2.1,
      ((vo_w32_config_first_and_repeated exampleVoFlags examplePlatform 1 freshState 640 480 0
        (by decide) (by decide) (by decide) (by decide)).2.1 rfl).2.2.2.2.2.1,
      ((vo_w32_config_first_and_repeated exampleVoFlags examplePlatform 1 freshState 640 480 0
        (by decide) (by decide) (by decide) (by decide)).2.1 rfl).2.2.2.2.2.2⟩,
    ⟨by decide, rfl, rfl, rfl, rfl⟩,
    (vo_w32_config_first_and_repeated exampleVoFlags resizedPlatform 1 exampleState 640 480 0
      (by decide) (by decide) (by decide) (by decide)).2.2 rfl rfl rfl rfl⟩

/-! ## Window style -/

/-- Masking with `m` a value whose `m` bits were cleared and then set to `f`
gives `f`. -/
theorem clear_or_and_mask (x n f m : Nat) (hn : n &&& m = 0) (hf : f &&& m = f) :
    (x &&& n ||| f) &&& m = f := by
  apply Nat.eq_of_testBit_eq
  intro i
  have h1 : (n &&& m).testBit i = false := by rw [hn]; simp
  have h2 : (f &&& m).testBit i = f.testBit i := by rw [hf]
  simp only [Nat.testBit_and, Nat.testBit_or] at h1 h2 ⊢
  cases hx : x.testBit i <;> cases hnb : n.testBit i <;> cases hfb : f.testBit i <;>
    cases hm : m.testBit i <;> simp_all

/-- Setting bits outside `n` does not change the bits inside `n`. -/
theorem clear_or_and_keep (x n f : Nat) (hf : f &&& n = 0) :
    (x &&& n ||| f) &&& n = x &&& n := by
  apply Nat.eq_of_testBit_eq
  intro i
  have h1 : (f &&& n).testBit i = false := by rw [hf]; simp
  simp only [Nat.testBit_and, Nat.testBit_or] at h1 ⊢
  cases hx : x.testBit i <;> cases hnb : n.testBit i <;> cases hfb : f.testBit i <;>
    simp_all

/-- The style `update_style` returns, by the frame decision. -/
theorem update_style_eq (s : State) (style : Nat) :
    update_style s style
      = (style % 4294967296 &&& (4294967295 ^^^ styleMask))
          ||| (if s.vo_border ≠ 0 ∧ s.vo_fs = 0 then frameBits else WS_POPUP) := by
  unfold update_style styleMask frameBits
  simp only [not_not]

/-- The style `update_style` returns while fullscreen. -/
theorem update_style_fullscreen (t : State) (style : Nat) (h : t.vo_fs ≠ 0) :
    update_style t style = (style % 4294967296 &&& (4294967295 ^^^ styleMask)) ||| WS_POPUP := by
  rw [update_style_eq, if_neg (fun hc => h hc.2)]

/-- The style recorded by `reinitAfterScreen` is the one it is given. -/
theorem reinitAfterScreen_style (toggle_fs : Bool) (style : Nat) (u : State) :
    (reinitAfterScreen toggle_fs style u).style = style := by
  simp [reinitAfterScreen]

/-- C12. For every input style word and every value of the bordered
(`vo_border`) and fullscreen (`vo_fs`) flags, `update_style` returns a style
whose frame/popup bits are the frame bits (`WS_OVERLAPPEDWINDOW | WS_SIZEBOX`,
popup clear) exactly when bordered is set and fullscreen is clear, and are the
popup bit alone (no frame bit) otherwise; every bit outside the frame/popup
mask equals the input; hence while fullscreen the resulting style does not
depend on the bordered flag, and `vo_w32_border` on a fullscreen window records
the same style as a plain `reinit_window_state`. -/
theorem update_style_frame_iff_bordered_windowed (s : State) (style : Nat) :
    (update_style s style &&& styleMask = frameBits ↔ (s.vo_border ≠ 0 ∧ s.vo_fs = 0))
    ∧ (¬ (s.vo_border ≠ 0 ∧ s.vo_fs = 0) → update_style s style &&& styleMask = WS_POPUP)
    ∧ update_style s style &&& (4294967295 ^^^ styleMask)
        = style % 4294967296 &&& (4294967295 ^^^ styleMask)
    ∧ (∀ b : Int, s.vo_fs ≠ 0 →
        update_style { s with vo_border := b } style = update_style s style)
    ∧ (∀ p : Platform, s.WinID < 0 → s.vo_fs ≠ 0 →
        (vo_w32_border p s).1.style = (reinit_window_state p s).1.style) := by
  have hframed : (s.vo_border ≠ 0 ∧ s.vo_fs = 0) →
      update_style s style &&& styleMask = frameBits := by
    intro h
    rw [update_style_eq, if_pos h]
    exact clear_or_and_mask _ _ _ _ (by decide) (by decide)
  have hpopup : ¬ (s.vo_border ≠ 0 ∧ s.vo_fs = 0) →
      update_style s style &&& styleMask = WS_POPUP := by
    intro h
    rw [update_style_eq, if_neg h]
    exact clear_or_and_mask _ _ _ _ (by decide) (by decide)
  refine ⟨⟨?_, hframed⟩, hpopup, ?_, ?_, ?_⟩
  · intro h
    by_contra hc
    rw [hpopup hc] at h
    exact absurd h (by decide)
  · rw [update_style_eq]
    split_ifs
    · exact clear_or_and_keep _ _ _ (by decide)
    · exact clear_or_and_keep _ _ _ (by decide)
  · intro b hfs
    rw [update_style_fullscreen s style hfs,
      update_style_fullscreen { s with vo_border := b } style hfs]
  · intro p hwin hfs
    unfold vo_w32_border
    rw [reinit_window_state_fst p s hwin,
      reinit_window_state_fst p { s with vo_border := if s.vo_border ≠ 0 then 0 else 1 } hwin,
      reinitAfterScreen_style, reinitAfterScreen_style,
      update_style_fullscreen { s with current_fs := decide (s.vo_fs ≠ 0) } s.style hfs,
      update_style_fullscreen
        { s with vo_border := if s.vo_border ≠ 0 then 0 else 1,
                 current_fs := decide (s.vo_fs ≠ 0) } s.style hfs]

/-- Witness of C12: a fullscreen window whose style word is
`WS_OVERLAPPEDWINDOW | WS_VISIBLE` gets `WS_POPUP | WS_VISIBLE`, with the
bordered flag set or clear. -/
theorem update_style_frame_iff_bordered_windowed_witness :
    ({ exampleState with vo_fs := 1 } : State).vo_fs ≠ 0
    ∧ update_style { exampleState with vo_fs := 1 } 0x10CF0000 = 0x90000000
    ∧ update_style { exampleState with vo_fs := 1, vo_border := 0 } 0x10CF0000
        = update_style { exampleState with vo_fs := 1 } 0x10CF0000 :=
  ⟨by decide, by decide,
    (update_style_frame_iff_bordered_windowed { exampleState with vo_fs := 1 }
      0x10CF0000).2.2.2.1 0 (by decide)⟩

/-! ## Coordinate corrected by a left-edge drag -/

/-- C13 (amended). For a left-edge drag, and likewise a bottom-left drag, under
the aspect lock, the single coordinate the `WM_SIZING` handler corrects is the
rectangle's bottom coordinate (index 3 of the (left, top, right, bottom)
tuple): it becomes `bottom - (-d_h)`, and left, top and right equal the
input. -/
theorem wm_sizing_left_drag_corrects_bottom (p : Platform) (s : State) (a : ℚ) (v : Int)
    (rc : RECT) (hk : s.vo_keepaspect ≠ 0) (hfs : s.vo_fs = 0) (hw : s.WinID < 0)
    (hv : v = WMSZ_LEFT ∨ v = WMSZ_BOTTOMLEFT) :
    get_resize_border v = 3
    ∧ (WndProc_WM_SIZING p s a v rc).1.left = rc.left
    ∧ (WndProc_WM_SIZING p s a v rc).1.top = rc.top
    ∧ (WndProc_WM_SIZING p s a v rc).1.right = rc.right
    ∧ (WndProc_WM_SIZING p s a v rc).1.bottom
        = wrapI32 (rc.bottom - wrapI32 (-clientDeltaH p s a rc)) := by
  have h3 : get_resize_border v = 3 := by
    rcases hv with h | h <;> rw [h] <;> decide
  rw [WndProc_WM_SIZING_active p s a v rc hk hfs hw, h3]
  simp

/-- Witness of C13 (amended): a left-edge drag under a 16:9 lock. -/
theorem wm_sizing_left_drag_corrects_bottom_witness :
    (exampleState.vo_keepaspect ≠ 0 ∧ exampleState.vo_fs = 0 ∧ exampleState.WinID < 0)
    ∧ (WndProc_WM_SIZING examplePlatform exampleState (16 / 9) WMSZ_LEFT
        ⟨0, 0, 816, 639⟩).1.right = 816 :=
  ⟨⟨by decide, rfl, by decide⟩,
    (wm_sizing_left_drag_corrects_bottom examplePlatform exampleState (16 / 9) WMSZ_LEFT
      ⟨0, 0, 816, 639⟩ (by decide) rfl (by decide) (Or.inl rfl)).2.2.2.1⟩

/-- Counterexample to C13 as stated: a left-edge drag under a 16:9 lock with a
requested client area of 800 x 600 leaves the right coordinate at 816 and
moves the bottom coordinate from 639 to 489. -/
theorem wm_sizing_left_drag_keeps_right :
    WndProc_WM_SIZING examplePlatform exampleState (16 / 9) WMSZ_LEFT ⟨0, 0, 816, 639⟩
      = (⟨0, 0, 816, 489⟩, true)
    ∧ (WndProc_WM_SIZING examplePlatform exampleState (16 / 9) WMSZ_LEFT
        ⟨0, 0, 816, 639⟩).1.right = (⟨0, 0, 816, 639⟩ : RECT).right
    ∧ (WndProc_WM_SIZING examplePlatform exampleState (16 / 9) WMSZ_LEFT
        ⟨0, 0, 816, 639⟩).1.bottom ≠ (⟨0, 0, 816, 639⟩ : RECT).bottom := by
  have hw : clientWidth examplePlatform exampleState ⟨0, 0, 816, 639⟩ = 800 := by decide
  have hh : clientHeight examplePlatform exampleState ⟨0, 0, 816, 639⟩ = 600 := by decide
  have hd : clientDeltaH examplePlatform exampleState (16 / 9) ⟨0, 0, 816, 639⟩ = -150 :=
    clientDeltaH_eq_of_int examplePlatform exampleState (16 / 9) ⟨0, 0, 816, 639⟩ (-150)
      (by norm_num) (by decide) (by decide) (by rw [hw]; norm_num [abs_lt])
      (by rw [hw, hh]; norm_num)
  have hr : WndProc_WM_SIZING examplePlatform exampleState (16 / 9) WMSZ_LEFT
      ⟨0, 0, 816, 639⟩ = (⟨0, 0, 816, 489⟩, true) := by
    refine Prod.ext ?_ ?_
    · rw [WndProc_WM_SIZING_active examplePlatform exampleState (16 / 9) WMSZ_LEFT
        ⟨0, 0, 816, 639⟩ (by decide) rfl (by decide), hd]
      decide
    · simp [WndProc_WM_SIZING, exampleState]
  refine ⟨hr, ?_, ?_⟩
  · rw [hr]
  · rw [hr]; decide

/-- The same left-edge drag with the binary32 value nearest to 16/9,
`14913081 * 2 ^ (-23)`, as the aspect: the quotient `800 / aspect` rounds to
450, and the result is the same rectangle. -/
theorem wm_sizing_left_drag_nearest_binary32 :
    round32 (14913081 / 8388608) = 14913081 / 8388608
    ∧ WndProc_WM_SIZING examplePlatform exampleState (14913081 / 8388608) WMSZ_LEFT
        ⟨0, 0, 816, 639⟩ = (⟨0, 0, 816, 489⟩, true) := by
  have r0 : round32 (14913081 / 8388608) = 14913081 / 8388608 := by
    rw [round32_eval _ 0 14913081 (by decide) (by norm_num [abs_of_pos])
      (by norm_num [abs_of_pos])
      (roundEven_eq_of_near _ 14913081 (by norm_num) (by norm_num))]
    norm_num
  have r1 : round32 ((800 : Int) : ℚ) = ((800 : Int) : ℚ) := round32_intCast 800 (by norm_num)
  have r2 : round32 ((600 : Int) : ℚ) = ((600 : Int) : ℚ) := round32_intCast 600 (by norm_num)
  have r3 : roundF32 (((800 : Int) : ℚ) / (14913081 / 8388608)) = some ((450 : Int) : ℚ) := by
    rw [roundF32_eval _ 8 14745600 (by decide) (by norm_num [abs_of_pos])
      (by norm_num [abs_of_pos])
      (roundEven_eq_of_near _ 14745600 (by norm_num) (by norm_num)) (by norm_num)]
    norm_num
  have r4 : roundF32 (((450 : Int) : ℚ) - ((600 : Int) : ℚ)) = some (((-150 : Int)) : ℚ) := by
    rw [show ((450 : Int) : ℚ) - ((600 : Int) : ℚ) = (((-150 : Int)) : ℚ) by norm_num]
    exact roundF32_intCast (-150) (by norm_num)
  have hd : clientDeltaH examplePlatform exampleState (14913081 / 8388608)
      ⟨0, 0, 816, 639⟩ = -150 := by
    unfold clientDeltaH
    rw [show clientWidth examplePlatform exampleState ⟨0, 0, 816, 639⟩ = 800 by decide,
      show clientHeight examplePlatform exampleState ⟨0, 0, 816, 639⟩ = 600 by decide,
      show wrapI32 800 = 800 by decide, show wrapI32 600 = 600 by decide]
    unfold sizing_d_h
    rw [if_neg (by norm_num), r1, r2, r3, Option.some_bind, r4]
    exact floatToInt32_intCast (-150) (by decide) (by decide)
  refine ⟨r0, Prod.ext ?_ ?_⟩
  · rw [WndProc_WM_SIZING_active examplePlatform exampleState (14913081 / 8388608) WMSZ_LEFT
      ⟨0, 0, 816, 639⟩ (by decide) rfl (by decide), hd]
    decide
  · simp [WndProc_WM_SIZING, exampleState]

/-! ## Restoring the display mode -/

/-- The screen queries issue no display-mode directive. -/
theorem updateScreenProperties_no_mode_directive (p : Platform) (s : State)
    (dm : Option DEVMODE) :
    Directive.ChangeDisplaySettings dm ∉ (updateScreenProperties p s).2 := by
  unfold updateScreenProperties
  cases p.currentSettings with
  | none => simp
  | some m => simp [w32_update_xinerama_info]

/-- The directives issued by `reinit_window_state` on a non-embedded window: the
title, the display-mode and cursor directives, those of the screen queries,
then the style, the position and the show directive. -/
theorem reinit_window_state_snd (p : Platform) (s : State) (hwin : s.WinID < 0) :
    ∃ (style : Nat) (layer : Bool) (x y cx cy : Int),
      (reinit_window_state p s).2 =
        [Directive.SetWindowText]
        ++ (if s.vo_fs ≠ 0 then
              changeMode p { s with current_fs := decide (s.vo_fs ≠ 0) }
                ++ [Directive.ShowCursor false]
            else resetMode { s with current_fs := decide (s.vo_fs ≠ 0) }
                ++ [Directive.ShowCursor true])
        ++ (updateScreenProperties p { s with current_fs := decide (s.vo_fs ≠ 0) }).2
        ++ [Directive.SetWindowLongStyle style, Directive.SetWindowPos layer x y cx cy,
            Directive.ShowWindow] := by
  unfold reinit_window_state
  rw [if_neg (not_le.mpr hwin)]
  exact ⟨_, _, _, _, _, _, rfl⟩

/-- On a non-embedded window `reinit_window_state` issues
`ChangeDisplaySettings(0, 0)` exactly when the fullscreen flag is clear and
`vm` is set. -/
theorem reinit_window_state_reverts_iff (p : Platform) (s : State) (hwin : s.WinID < 0) :
    Directive.ChangeDisplaySettings none ∈ (reinit_window_state p s).2
      ↔ (s.vo_fs = 0 ∧ s.vm ≠ 0) := by
  obtain ⟨style, layer, x, y, cx, cy, h⟩ := reinit_window_state_snd p s hwin
  rw [h]
  by_cases hfs : s.vo_fs = 0
  · by_cases hvm : s.vm = 0
    · simp [hfs, hvm, resetMode, updateScreenProperties_no_mode_directive]
    · simp [hfs, hvm, resetMode, updateScreenProperties_no_mode_directive]
  · by_cases hvm : s.vm = 0
    · simp [hfs, hvm, changeMode, updateScreenProperties_no_mode_directive]
    · simp [hfs, hvm, changeMode, updateScreenProperties_no_mode_directive]

/-- The flag `vm` is left as it is by `reinit_window_state`. -/
theorem reinit_window_state_vm (p : Platform) (t : State) (hwin : t.WinID < 0) :
    (reinit_window_state p t).1.vm = t.vm := by
  rw [reinit_window_state_fst p t hwin]
  have k := updateScreenProperties_sameWindow p
    { t with current_fs := decide (t.vo_fs ≠ 0) }
  simp only [SameWindow] at k
  obtain ⟨_, _, _, _, _, _, _, _, _, _, _, k12, _⟩ := k
  refine Eq.trans ?_ k12
  unfold reinitAfterScreen
  simp only
  split_ifs <;> rfl

/-- C14 (amended). Restoring the display mode depends on the current value of
`vm` (mode switching enabled): on a non-embedded window, a transition that ends
with the window not fullscreen issues `ChangeDisplaySettings(0, 0)` exactly
when `vm` is set at that transition.  For `vo_w32_fullscreen` leaving
fullscreen that is the stored `vm`; for a successful non-hidden `vo_w32_config`
with the fullscreen flag clear it is the `VOFLAG_MODESWITCHING` bit of that
call, which `vo_w32_config` stores into `vm` before the transition. -/
theorem revert_directive_iff_mode_switching (F : VoFlags) (p : Platform) (pf : Int)
    (s : State) (width height flags : Nat) (hwin : s.WinID < 0) :
    (s.vo_fs ≠ 0 →
      (vo_w32_fullscreen p s).1.vo_fs = 0
      ∧ (Directive.ChangeDisplaySettings none ∈ (vo_w32_fullscreen p s).2 ↔ s.vm ≠ 0))
    ∧ (pf ≠ 0 → flags &&& F.VOFLAG_HIDDEN = 0 → flags &&& F.VOFLAG_FULLSCREEN = 0 →
      (vo_w32_config F p pf s width height flags).1.vo_fs = 0
      ∧ (vo_w32_config F p pf s width height flags).1.vm
          = toI32 (flags &&& F.VOFLAG_MODESWITCHING)
      ∧ (Directive.ChangeDisplaySettings none
            ∈ (vo_w32_config F p pf s width height flags).2.1
          ↔ toI32 (flags &&& F.VOFLAG_MODESWITCHING) ≠ 0)) := by
  constructor
  · intro hfs
    unfold vo_w32_fullscreen
    rw [if_pos hfs]
    refine ⟨?_, ?_⟩
    · have k := updateScreenProperties_sameWindow p
        { s with vo_fs := 0, current_fs := decide ((0 : Int) ≠ 0) }
      simp only [SameWindow] at k
      obtain ⟨_, _, _, _, _, _, _, _, k9, _, _, _, _⟩ := k
      rw [reinit_window_state_fst p { s with vo_fs := 0 } hwin]
      refine Eq.trans ?_ k9
      unfold reinitAfterScreen
      simp only
      split_ifs <;> rfl
    · rw [reinit_window_state_reverts_iff p { s with vo_fs := 0 } hwin]
      simp
  · intro hpf hhid hfs
    obtain ⟨c1, _, c3, c4⟩ := vo_w32_config_prepare_common F p s width height flags
    have hfs0 : (vo_w32_config_prepare F p s width height flags).vo_fs = 0 := by
      rw [c3, hfs]; decide
    have hwin1 : (vo_w32_config_prepare F p s width height flags).WinID < 0 := by
      rw [c1]; exact hwin
    rw [vo_w32_config_shown F p pf s width height flags hpf hhid]
    simp only
    refine ⟨?_, ?_, ?_⟩
    · have k := updateScreenProperties_sameWindow p
        { vo_w32_config_prepare F p s width height flags with
          current_fs := decide ((vo_w32_config_prepare F p s width height flags).vo_fs ≠ 0) }
      simp only [SameWindow] at k
      obtain ⟨_, _, _, _, _, _, _, _, k9, _, _, _, _⟩ := k
      rw [reinit_window_state_fst p _ hwin1]
      refine Eq.trans ?_ (k9.trans hfs0)
      unfold reinitAfterScreen
      simp only
      split_ifs <;> rfl
    · rw [reinit_window_state_vm p _ hwin1, c4]
    · rw [reinit_window_state_reverts_iff p _ hwin1, c4]
      simp [hfs0]

/-- Witness of C14 (amended): the example window, put in fullscreen with mode
switching stored, is toggled back and the revert directive is issued. -/
theorem revert_directive_iff_mode_switching_witness :
    (({ exampleState with vo_fs := 1, current_fs := true, vm := 1 } : State).WinID < 0
      ∧ ({ exampleState with vo_fs := 1, current_fs := true, vm := 1 } : State).vo_fs ≠ 0
      ∧ ({ exampleState with vo_fs := 1, current_fs := true, vm := 1 } : State).vm ≠ 0)
    ∧ Directive.ChangeDisplaySettings none
        ∈ (vo_w32_fullscreen examplePlatform
            { exampleState with vo_fs := 1, current_fs := true, vm := 1 }).2 :=
  ⟨⟨by decide, by decide, by decide⟩,
    ((revert_directive_iff_mode_switching exampleVoFlags examplePlatform 1
        { exampleState with vo_fs := 1, current_fs := true, vm := 1 } 640 480 0
        (by decide)).1 (by decide)).2.mpr (by decide)⟩

/-- Counterexample to C14 as stated: `vo_w32_config` with the fullscreen and
mode-switching flags applies the mode 1600 x 900; a following `vo_w32_config`
with neither flag ends windowed and issues no `ChangeDisplaySettings(0, 0)`,
nor any other display-mode directive. -/
theorem config_windowed_without_mode_switching_no_revert :
    Directive.ChangeDisplaySettings (some ⟨32, 1600, 900⟩)
        ∈ (vo_w32_config exampleVoFlags examplePlatform 1 exampleState 640 480 3).2.1
    ∧ (vo_w32_config exampleVoFlags examplePlatform 1 exampleState 640 480 3).1.vo_fs ≠ 0
    ∧ (vo_w32_config exampleVoFlags examplePlatform 1
        (vo_w32_config exampleVoFlags examplePlatform 1 exampleState 640 480 3).1
        640 480 0).1.vo_fs = 0
    ∧ (vo_w32_config exampleVoFlags examplePlatform 1
        (vo_w32_config exampleVoFlags examplePlatform 1 exampleState 640 480 3).1
        640 480 0).1.current_fs = false
    ∧ (∀ dm, Directive.ChangeDisplaySettings dm
        ∉ (vo_w32_config exampleVoFlags examplePlatform 1
            (vo_w32_config exampleVoFlags examplePlatform 1 exampleState 640 480 3).1
            640 480 0).2.1) := by
  have h1 : vo_w32_config exampleVoFlags examplePlatform 1 exampleState 640 480 3
      = ({ exampleState with
            vo_fs := 1, vm := 2, current_fs := true, style := 0x80000000,
            prev_width := 640, prev_height := 480, prev_x := 100, prev_y := 50,
            window_x := 0, window_y := 0, dwidth := 1920, dheight := 1080 },
         [Directive.SetWindowText,
          Directive.ChangeDisplaySettings (some ⟨32, 1600, 900⟩),
          Directive.ShowCursor false,
          Directive.aspect_save_screenres 1920 1080,
          Directive.SetWindowLongStyle 0x80000000,
          Directive.SetWindowPos true (-8) (-31) 1936 1119,
          Directive.ShowWindow], 1) := by decide
  have h2 : vo_w32_config exampleVoFlags examplePlatform 1
      { exampleState with
            vo_fs := 1, vm := 2, current_fs := true, style := 0x80000000,
            prev_width := 640, prev_height := 480, prev_x := 100, prev_y := 50,
            window_x := 0, window_y := 0, dwidth := 1920, dheight := 1080 } 640 480 0
      = ({ exampleState with
            vo_fs := 0, vm := 0, current_fs := false, style := 0x00CF0000,
            prev_width := 640, prev_height := 480, prev_x := 100, prev_y := 50,
            window_x := 100, window_y := 50, dwidth := 640, dheight := 480 },
         [Directive.SetWindowText,
          Directive.ShowCursor true,
          Directive.aspect_save_screenres 1920 1080,
          Directive.SetWindowLongStyle 0x00CF0000,
          Directive.SetWindowPos false 92 19 656 519,
          Directive.ShowWindow], 1) := by decide
  rw [h1]
  simp only
  rw [h2]
  refine ⟨by decide, by decide, rfl, rfl, ?_⟩
  intro dm
  simp

end W32
